import Mathlib

/-!
Verification of the retrieval-and-guardrail engine of the atlas-mini-poc
repository (`src/lib/query-engine.ts` and `src/lib/types.ts`).

The TypeScript engine is shallowly embedded: every function of the engine
becomes an executable Lean definition with the same name.  JavaScript strings
are modelled as lists of characters (`Str`), numbers carried by the data
(reliability scores) as rationals, and dates as integer millisecond
timestamps.  The wall clock (`new Date()`) is threaded explicitly: one
timestamp for the query plan's `createdAt` and one for all age computations.
The external narrative-rewrite call is modelled by its result (a record of
optional replacement strings); in deterministic mode the engine never
consults it, exactly as in the source.  ISO date rendering of freshness
summary dates is abstracted to the whole-day index of the timestamp.
-/

namespace Atlas

/-- JavaScript strings are modelled as lists of characters. -/
abbrev Str := List Char

/-- Lower-casing of a string, as JavaScript `toLowerCase` on ASCII text. -/
def toLowerStr (s : Str) : Str := s.map Char.toLower

/-- Substring test, as JavaScript `String.prototype.includes`. -/
def containsStr (hay pat : Str) : Bool := decide (pat <:+: hay)

/-- Character class kept by the regex `[a-z0-9]` used in `keywordScore`. -/
def isAlnumLower (c : Char) : Bool :=
  (('a' ≤ c) && (c ≤ 'z')) || (('0' ≤ c) && (c ≤ '9'))

/-- Replacement `replace(/[^a-z0-9]+/g, "")`: keep only `[a-z0-9]` characters. -/
def compactStr (s : Str) : Str := s.filter isAlnumLower

/-- Emptiness of `t.trim()`: true when the string is all whitespace. -/
def trimEmpty (s : Str) : Bool := s.all Char.isWhitespace

/-- JavaScript `[].join(sep)` on a list of strings. -/
def joinSep (sep : Str) : List Str → Str
  | [] => []
  | [x] => x
  | x :: y :: xs => x ++ sep ++ joinSep sep (y :: xs)

/- ### Enumerations of `src/lib/types.ts` -/

/-- Member of `travelerTypes` (types.ts). -/
inductive TravelerType
  | honeymoon | multi_gen_family | solo_wellness | corporate_executive
  deriving DecidableEq, Repr

/-- Member of `seasonTypes` (types.ts). -/
inductive SeasonType
  | late_september | peak_summer | shoulder_apr_may | low_nov_mar
  deriving DecidableEq, Repr

/-- Member of `roleTypes` (types.ts). -/
inductive RoleType
  | reservations | marketing | destination_specialist | finance
  deriving DecidableEq, Repr

/-- The `SourceType` union (types.ts). -/
inductive SourceType
  | site_visit | post_trip_feedback | booking_intelligence | contract
  | promotion | ujv_pov | unstructured_chunk
  deriving DecidableEq, Repr

/-- The `SectionKey` union (types.ts). -/
inductive SectionKey
  | positioning | travelerFit | risks | promotions | ujvPov
  deriving DecidableEq, Repr

/-- Section status strings `"OK" | "INSUFFICIENT_SOURCES"`. -/
inductive Status
  | ok | insufficient
  deriving DecidableEq, Repr

/-- The `retrievalMode` strings `"mock_synthesis" | "llm_assisted"`. -/
inductive RetrievalMode
  | mock_synthesis | llm_assisted
  deriving DecidableEq, Repr

/-- Evidence strength label strings `"High" | "Medium" | "Low"`. -/
inductive StrengthLabel
  | high | medium | low
  deriving DecidableEq, Repr

/-- Freshness policy compliance strings `"PASS" | "WARN"`. -/
inductive Compliance
  | pass | warn
  deriving DecidableEq, Repr

/- ### Label tables of `query-engine.ts` (lines 22-49) -/

/-- The `travelerLabels` table. -/
def travelerLabels : TravelerType → Str
  | .honeymoon => ("Honeymoon".toList)
  | .multi_gen_family => ("Multi-gen Family".toList)
  | .solo_wellness => ("Solo / Wellness".toList)
  | .corporate_executive => ("Corporate / Executive".toList)

/-- The `seasonLabels` table. -/
def seasonLabels : SeasonType → Str
  | .late_september => ("Late September".toList)
  | .peak_summer => ("Peak Summer (Jul-Aug)".toList)
  | .shoulder_apr_may => ("Shoulder Season (Apr-May)".toList)
  | .low_nov_mar => ("Low (Nov-Mar)".toList)

/-- The `roleLabels` table. -/
def roleLabels : RoleType → Str
  | .reservations => ("Reservations".toList)
  | .marketing => ("Marketing".toList)
  | .destination_specialist => ("Destination Specialist".toList)
  | .finance => ("Finance".toList)

/-- The `sectionKeywords` table. -/
def sectionKeywords : SectionKey → List Str
  | .positioning =>
      [("privacy".toList), ("romantic".toList), ("service".toList),
       ("design".toList), ("nightlife".toList)]
  | .travelerFit =>
      [("traveler".toList), ("fit".toList), ("honeymoon".toList),
       ("family".toList), ("wellness".toList), ("executive".toList)]
  | .risks =>
      [("risk".toList), ("caveat".toList), ("transfer".toList),
       ("logistics".toList), ("nightlife".toList)]
  | .promotions =>
      [("promotion".toList), ("discount".toList), ("offer".toList),
       ("stack".toList), ("combinable".toList)]
  | .ujvPov =>
      [("talk track".toList), ("position".toList), ("qualify".toList),
       ("value drivers".toList)]

/-- The `unstructuredSourceTypes` set (query-engine.ts line 51). -/
def unstructuredSourceTypes : List SourceType :=
  [.site_visit, .post_trip_feedback]

/-- JSON string value of a `SourceType`, as serialized in the data files. -/
def sourceTypeStr : SourceType → Str
  | .site_visit => ("site_visit".toList)
  | .post_trip_feedback => ("post_trip_feedback".toList)
  | .booking_intelligence => ("booking_intelligence".toList)
  | .contract => ("contract".toList)
  | .promotion => ("promotion".toList)
  | .ujv_pov => ("ujv_pov".toList)
  | .unstructured_chunk => ("unstructured_chunk".toList)

/- ### Data model (`src/lib/types.ts`) -/

/-- A `SourceRecord` (types.ts).  Dates are millisecond timestamps. -/
structure SourceRecord where
  sourceId : Str
  type : SourceType
  title : Str
  author : Str
  date : ℤ
  system : Str
  reliability : ℚ
  snippet : Str
  ownerTeam : Str
  version : Str
  docRef : Str
  lastVerifiedAt : ℤ
  deriving DecidableEq, Repr

/-- An `UnstructuredChunk` (types.ts). -/
structure UnstructuredChunk where
  chunkId : Str
  hotelId : Str
  sourceType : SourceType
  title : Str
  date : ℤ
  reliability : ℚ
  text : Str
  ownerTeam : Str
  version : Str
  docRef : Str
  deriving DecidableEq, Repr

/-- A `HotelPolicy` (types.ts): `maxAgeDaysBySourceType`.  A source type with
no configured limit is `none` (the engine skips it via its runtime
`typeof maxAge !== "number"` check). -/
structure HotelPolicy where
  site_visit : Option ℤ
  post_trip_feedback : Option ℤ
  booking_intelligence : Option ℤ
  contract : Option ℤ
  promotion : Option ℤ
  ujv_pov : Option ℤ
  unstructured_chunk : Option ℤ
  deriving DecidableEq, Repr

/-- Lookup `hotel.policy.maxAgeDaysBySourceType[type]`. -/
def HotelPolicy.maxAgeFor (p : HotelPolicy) : SourceType → Option ℤ
  | .site_visit => p.site_visit
  | .post_trip_feedback => p.post_trip_feedback
  | .booking_intelligence => p.booking_intelligence
  | .contract => p.contract
  | .promotion => p.promotion
  | .ujv_pov => p.ujv_pov
  | .unstructured_chunk => p.unstructured_chunk

/-- A risk entry of `HotelData.risks` (types.ts). -/
structure RiskEntry where
  riskId : Str
  text : Str
  severity : Str
  seasonRelevance : List SeasonType
  sourceIds : List Str
  deriving DecidableEq, Repr

/-- The validity window of a promotion (types.ts). -/
structure PromoValidity where
  bookingFrom : Str
  bookingTo : Str
  travelFrom : Str
  travelTo : Str
  deriving DecidableEq, Repr

/-- A promotion of `HotelData.promotions` (types.ts). -/
structure PromotionEntry where
  promoId : Str
  name : Str
  description : Str
  validity : PromoValidity
  eligibility : List Str
  sourceIds : List Str
  deriving DecidableEq, Repr

/-- A contract stacking rule (types.ts). -/
structure StackingRule where
  ruleId : Str
  text : Str
  allowsCombination : Bool
  appliesToPromoIds : List Str
  sourceIds : List Str
  deriving DecidableEq, Repr

/-- The contract block of a hotel (types.ts). -/
structure ContractBlock where
  sourceIds : List Str
  stackingRules : List StackingRule
  deriving DecidableEq, Repr

/-- The `travelerFit` block of a hotel (types.ts).  The per-type maps model
the runtime `byType[t] ?? []` and `sourceIds[t] ?? []` accesses with
`Option`. -/
structure TravelerFitBlock where
  common : List Str
  byType : TravelerType → Option (List Str)
  sourceIdsCommon : List Str
  sourceIdsByType : TravelerType → Option (List Str)

/-- The `bookingIntelligence` block of a hotel (types.ts). -/
structure BookingIntelligence where
  avgBookingValueUsd : ℕ
  qualitativeSummary : Str
  patterns : List Str
  sourceIds : List Str
  deriving DecidableEq, Repr

/-- A feedback theme of a hotel (types.ts). -/
structure FeedbackTheme where
  themeId : Str
  label : Str
  text : Str
  sourceIds : List Str
  deriving DecidableEq, Repr

/-- The `ujvPov` block of a hotel (types.ts). -/
structure UjvPovBlock where
  talkTrack : List Str
  sourceIds : List Str
  deriving DecidableEq, Repr

/-- The positioning block of a hotel (types.ts). -/
structure PositioningBlock where
  strengths : List Str
  sourceIds : List Str
  deriving DecidableEq, Repr

/-- A `HotelData` record (types.ts). -/
structure HotelData where
  hotelId : Str
  name : Str
  country : Str
  region : Str
  category : Str
  ownerTeam : Str
  version : Str
  lastUpdatedAt : ℤ
  policy : HotelPolicy
  positioningTags : List Str
  positioning : PositioningBlock
  travelerFit : TravelerFitBlock
  seasonality : SeasonType → Str
  risks : List RiskEntry
  promotions : List PromotionEntry
  contract : ContractBlock
  bookingIntelligence : BookingIntelligence
  feedbackThemes : List FeedbackTheme
  ujvPov : UjvPovBlock

/-- A validated `QueryInput` (types.ts). -/
structure QueryInput where
  hotelId : Str
  travelerType : TravelerType
  season : SeasonType
  includeRisks : Bool
  includePromotions : Bool
  includeUjvPov : Bool
  role : RoleType
  useLLM : Bool
  deriving DecidableEq, Repr

/-- A `Citation` (types.ts). -/
structure Citation where
  sourceId : Str
  type : SourceType
  title : Str
  author : Str
  date : ℤ
  system : Str
  reliability : ℚ
  snippet : Str
  docRef : Str
  deriving DecidableEq, Repr

/-- A `ConflictEvent` (types.ts). -/
structure ConflictEvent where
  chunkId : Str
  reason : Str
  structuredRuleRef : Str
  deriving DecidableEq, Repr

/-- A `RetrievalBreakdown` (types.ts). -/
structure RetrievalBreakdown where
  structuredFactsCount : ℕ
  semanticChunksCount : ℕ
  overridesApplied : Bool
  conflictsIgnoredCount : ℕ
  deriving DecidableEq, Repr

/-- A `TextSection` (types.ts). -/
structure TextSection where
  status : Status
  content : Str
  citations : List Citation
  semanticChunksUsed : List UnstructuredChunk
  retrievalBreakdown : RetrievalBreakdown
  conflictsIgnored : List ConflictEvent
  deriving DecidableEq, Repr

/-- A promo item of `PromotionsSection.content.promos` (types.ts). -/
structure PromoItem where
  promoId : Str
  name : Str
  description : Str
  validity : PromoValidity
  eligibility : List Str
  deriving DecidableEq, Repr

/-- A stacking-rule item of `PromotionsSection.content.stackingRules`. -/
structure StackingRuleItem where
  ruleId : Str
  text : Str
  allowsCombination : Bool
  appliesToPromoIds : List Str
  deriving DecidableEq, Repr

/-- The structured content of a `PromotionsSection` (types.ts). -/
structure PromotionsContent where
  promos : List PromoItem
  stackingRules : List StackingRuleItem
  deriving DecidableEq, Repr

/-- A `PromotionsSection` (types.ts). -/
structure PromotionsSection where
  status : Status
  content : PromotionsContent
  citations : List Citation
  semanticChunksUsed : List UnstructuredChunk
  retrievalBreakdown : RetrievalBreakdown
  conflictsIgnored : List ConflictEvent
  deriving DecidableEq, Repr

/-- The per-section query-term map of a `QueryPlan` (types.ts,
`Partial Record SectionKey (List Str)`). -/
structure PerSectionTerms where
  positioning : Option (List Str)
  travelerFit : Option (List Str)
  risks : Option (List Str)
  promotions : Option (List Str)
  ujvPov : Option (List Str)
  deriving DecidableEq, Repr

/-- A `QueryPlan` (types.ts).  `createdAt` is the millisecond timestamp the
engine obtains from `new Date()` at plan construction. -/
structure QueryPlan where
  hotelId : Str
  hotelName : Str
  travelerType : TravelerType
  season : SeasonType
  role : RoleType
  sectionsRequested : List SectionKey
  retrievalMode : RetrievalMode
  globalTerms : List Str
  perSection : PerSectionTerms
  createdAt : ℤ
  deriving DecidableEq, Repr

/- ### Generic helpers of `query-engine.ts` (lines 60-106) -/

/-- The `clamp(n, min, max)` helper (line 60). -/
def clamp (n lo hi : ℚ) : ℚ := min hi (max lo n)

/-- The `uniq` helper, `Array.from(new Set(arr))`: keeps the first occurrence
of each element, in first-seen order. -/
def uniqAux [DecidableEq α] (seen : List α) : List α → List α
  | [] => []
  | x :: xs => if x ∈ seen then uniqAux seen xs else x :: uniqAux (x :: seen) xs

/-- First-occurrence de-duplication, as `uniq` in the engine (line 64). -/
def uniq [DecidableEq α] (l : List α) : List α := uniqAux [] l

/-- The `daysOld(date, now)` helper (line 75): whole days elapsed, floored. -/
def daysOld (date now : ℤ) : ℤ := (now - date).fdiv 86400000

/-- The day index of a timestamp; models `formatDate`, which renders a
timestamp as its ISO calendar date (a bijective image of this index). -/
def dayIndex (t : ℤ) : ℤ := t.fdiv 86400000

/-- The `maxDate` helper (line 80) on the model's always-valid dates. -/
def maxDateM : List ℤ → Option ℤ
  | [] => none
  | d :: ds =>
      match maxDateM ds with
      | none => some d
      | some m => some (max d m)

/-- Map a `SourceRecord` to a `Citation`, as `toCitation` (line 94). -/
def toCitation (s : SourceRecord) : Citation :=
  { sourceId := s.sourceId
    type := s.type
    title := s.title
    author := s.author
    date := s.date
    system := s.system
    reliability := s.reliability
    snippet := s.snippet
    docRef := s.docRef }

/-- Lookup in the `sourceMap` built by `new Map(allSources.map(...))`: the
last record with a given id wins, as in a JavaScript `Map` constructor. -/
def sourceLookup (sources : List SourceRecord) (id : Str) : Option SourceRecord :=
  sources.foldl (fun acc s => if s.sourceId = id then some s else acc) none

/- ### Chunk scorer (`keywordScore`, lines 187-202) -/

/-- Score contributed by one term against the lower-cased chunk text. -/
def termScore (text : Str) (term : Str) : ℕ :=
  let t := toLowerStr term
  if trimEmpty t then 0
  else
    (if containsStr text t then (if containsStr t ([' ']) then 2 else 1) else 0)
    + (let compact := compactStr t
       if compact ≠ [] ∧ compact ≠ t ∧ containsStr (compactStr text) compact
       then 1 else 0)

/-- The `keywordScore` function (line 187). -/
def keywordScore (chunk : UnstructuredChunk) (terms : List Str) : ℕ :=
  let text := toLowerStr (chunk.title ++ ([' ']) ++ chunk.text)
  terms.foldl (fun score term => score + termScore text term) 0

/- ### Conflict detector (`detectSemanticConflict`, lines 204-240) -/

/-- The `detectSemanticConflict` function: the stacking-claim rule and the
positioning-conflict rule, evaluated in source order. -/
def detectSemanticConflict (chunk : UnstructuredChunk) (section_ : SectionKey)
    (hotel : HotelData) : Option ConflictEvent :=
  let text := toLowerStr chunk.text
  let hasPromoStackClaim :=
    (containsStr text ("stack".toList) || containsStr text ("combine".toList)
      || containsStr text ("combinable".toList))
    && containsStr text ("4th".toList)
    && containsStr text ("early booking".toList)
  let stackingHit :=
    if hasPromoStackClaim then
      hotel.contract.stackingRules.find? (fun r =>
        r.ruleId = ("sr_nonstack_4nf_eb15".toList)
          ∨ (r.allowsCombination = false ∧ r.appliesToPromoIds ≠ []))
    else none
  match stackingHit with
  | some rule =>
      some { chunkId := chunk.chunkId
             reason := ("Chunk claims promo combinability that conflicts with contract stacking rules.".toList)
             structuredRuleRef := ("contract.stackingRules.".toList) ++ rule.ruleId }
  | none =>
      let claimsNightlife :=
        containsStr text ("nightlife-focused".toList)
          || containsStr text ("nightlife focused".toList)
          || containsStr text ("late-night scene".toList)
      let structuredSaysNightlifeLimited :=
        decide (("nightlife".toList) ∉ hotel.positioningTags)
      if claimsNightlife && structuredSaysNightlifeLimited
          && decide (section_ = SectionKey.positioning) then
        some { chunkId := chunk.chunkId
               reason := ("Chunk conflicts with canonical positioning tags and site visit notes (privacy-led, not nightlife-led).".toList)
               structuredRuleRef := ("hotel.positioningTags".toList) }
      else none

/- ### Semantic retriever (`retrieveSemanticChunks`, lines 242-270) -/

/-- A scored chunk, as the intermediate objects of the retriever. -/
structure ScoredChunk where
  chunk : UnstructuredChunk
  score : ℕ
  deriving DecidableEq, Repr

/-- Comparator order of `sort((a, b) => b.score - a.score || b.chunk.reliability - a.chunk.reliability)`:
`a` may stay before `b` when its score is higher, or equal with reliability
at least as high; the sort is stable beyond these two keys. -/
def scoredLE (a b : ScoredChunk) : Bool :=
  (b.score < a.score) || (a.score = b.score ∧ b.chunk.reliability ≤ a.chunk.reliability)

/-- Stable insertion of `x` into a list sorted by `le`: `x` is placed before
the first element it may precede, so an element inserted from the left of
the original order stays before its ties. -/
def insertLE (le : α → α → Bool) (x : α) : List α → List α
  | [] => [x]
  | y :: ys => if le x y then x :: y :: ys else y :: insertLE le x ys

/-- Stable sort by a total comparator, as JavaScript `Array.prototype.sort`
with a consistent comparator (the engine's comparator is the lexicographic
numeric order on descending score then descending reliability, so the stable
result is unique and this insertion sort computes it). -/
def stableSortLE (le : α → α → Bool) : List α → List α
  | [] => []
  | x :: xs => insertLE le x (stableSortLE le xs)

/-- The collection loop of the retriever: walk the ranked candidates, log a
conflicting chunk and skip it, keep a clean chunk, and stop once `remaining`
clean chunks have been kept. -/
def retrieveWalk (hotel : HotelData) (section_ : SectionKey) :
    List UnstructuredChunk → ℕ → List UnstructuredChunk × List ConflictEvent
  | [], _ => ([], [])
  | c :: rest, remaining =>
      match detectSemanticConflict c section_ hotel with
      | some e =>
          let r := retrieveWalk hotel section_ rest remaining
          (r.1, e :: r.2)
      | none =>
          if remaining ≤ 1 then ([c], [])
          else
            let r := retrieveWalk hotel section_ rest (remaining - 1)
            (c :: r.1, r.2)

/-- The result record of the retriever. -/
structure RetrievalResult where
  used : List UnstructuredChunk
  conflictsIgnored : List ConflictEvent
  deriving DecidableEq, Repr

/-- The `retrieveSemanticChunks` function (line 242).  Every engine call
site leaves `topN` at the source's default of 3; the parameter is passed
explicitly here. -/
def retrieveSemanticChunks (allChunks : List UnstructuredChunk)
    (hotel : HotelData) (section_ : SectionKey) (terms : List Str)
    (topN : ℕ) : RetrievalResult :=
  let scored :=
    ((allChunks.filter (fun c => c.hotelId = hotel.hotelId)).map
        (fun c => ScoredChunk.mk c (keywordScore c terms))).filter
      (fun x => 0 < x.score)
  let ranked := stableSortLE scoredLE scored
  let r := retrieveWalk hotel section_ (ranked.map (·.chunk)) topN
  { used := r.1, conflictsIgnored := r.2 }

/-- The `collectCitations` function (line 272). -/
def collectCitations (sourceIds : List Str) (sources : List SourceRecord) :
    List Citation :=
  ((uniq sourceIds).filterMap (sourceLookup sources)).map toCitation

/-- The `buildRetrievalBreakdown` function (line 279). -/
def buildRetrievalBreakdown (structuredFactsCount semanticChunksCount
    conflictsIgnoredCount : ℕ) : RetrievalBreakdown :=
  { structuredFactsCount := structuredFactsCount
    semanticChunksCount := semanticChunksCount
    overridesApplied := decide (0 < conflictsIgnoredCount)
    conflictsIgnoredCount := conflictsIgnoredCount }

/-- The fixed sentence of `insufficientText()` (line 292). -/
def insufficientText : Str :=
  ("Insufficient verified sources to answer this section.".toList)

/-- The `renderBulletText` function (line 296). -/
def renderBulletText (lines : List Str) : Str :=
  joinSep (['\n']) (lines.map (fun line => ('-' :: ' ' :: line)))

/- ### Number rendering helpers -/

/-- Decimal digit character for a digit value below 10. -/
def digitChar (d : ℕ) : Char := Char.ofNat (48 + d)

/-- Little-endian base-10 digits with structural fuel (the fuel argument
only bounds the recursion; `n` itself is always enough fuel since each
step divides by 10), so that the kernel can evaluate it. -/
def digitsRevAux : ℕ → ℕ → List ℕ
  | 0, _ => []
  | _ + 1, 0 => []
  | fuel + 1, m + 1 => (m + 1) % 10 :: digitsRevAux fuel ((m + 1) / 10)

/-- Little-endian base-10 digit list of a natural number (empty for 0). -/
def digitsRev (n : ℕ) : List ℕ := digitsRevAux n n

/-- Little-endian digit list of a natural number rendered to characters
(position counter `k`): a comma is emitted before the digit of each
position that is a positive multiple of 3, so that after reversal the
commas separate three-digit groups, as in `12,500`. -/
def groupRevAux : ℕ → List ℕ → Str
  | _, [] => []
  | k, d :: ds =>
      (if k % 3 = 0 ∧ k ≠ 0 then [',', digitChar d] else [digitChar d])
        ++ groupRevAux (k + 1) ds

/-- JavaScript `Number.prototype.toLocaleString` on a natural number:
decimal digits grouped by thousands with commas. -/
def groupDigits (n : ℕ) : Str :=
  if n = 0 then (['0']) else (groupRevAux 0 (digitsRev n)).reverse

/-- JavaScript `String(n)` on a natural number: plain decimal digits. -/
def natToStr (n : ℕ) : Str :=
  if n = 0 then (['0']) else ((digitsRev n).map digitChar).reverse

/-- JavaScript template rendering of an integer. -/
def intToStr (i : ℤ) : Str :=
  if i < 0 then ('-' :: natToStr i.natAbs) else natToStr i.natAbs

/-- Rounding to two decimals, as `Number(x.toFixed(2))` on the engine's
score values (ties round half up, matching `toFixed` away from binary
representation edge cases, which the engine's exact values avoid). -/
def round2 (q : ℚ) : ℚ := ((round (q * 100) : ℤ) : ℚ) / 100

/-- Rendering `x.toFixed(2)` for a score already clamped into `[0, 1]`. -/
def fmt2 (q : ℚ) : Str :=
  let n := (round (q * 100)).toNat
  if 100 ≤ n then ("1.00".toList)
  else ('0' :: '.' :: [digitChar (n / 10), digitChar (n % 10)])

/- ### Section builders (`query-engine.ts` lines 300-518) -/

/-- The retrieval result handed to a text-section builder. -/
abbrev Semantic := RetrievalResult

/-- The bullet line listing used chunk titles, shared by all text builders. -/
def supportingColorLine (used : List UnstructuredChunk) : Str :=
  ("Supporting color (non-canonical): ".toList)
    ++ joinSep ((", ".toList)) (used.map (·.title)) ++ (['.'])

/-- The optional supporting-color suffix of a builder's content lines. -/
def supportingColorLines (used : List UnstructuredChunk) : List Str :=
  if used ≠ [] then [supportingColorLine used] else []

/-- The `buildPositioningSection` function (line 300). -/
def buildPositioningSection (hotel : HotelData) (sources : List SourceRecord)
    (semantic : Semantic) (input : QueryInput) : TextSection :=
  let sourceIds := hotel.positioning.sourceIds
  let citations := collectCitations sourceIds sources
  let facts :=
    (hotel.name ++ (" is positioned as ".toList)
        ++ joinSep ((", ".toList)) hotel.positioningTags ++ (['.']))
      :: hotel.positioning.strengths
      ++ [hotel.seasonality input.season]
  let status := if citations.length = 0 then Status.insufficient else Status.ok
  let contentLines :=
    if status = Status.ok then
      [hotel.name ++ (" is positioned as ".toList)
          ++ joinSep ((", ".toList)) hotel.positioningTags ++ (['.']),
        ("Core strengths: ".toList)
          ++ joinSep (("; ".toList)) hotel.positioning.strengths ++ (['.']),
        hotel.seasonality input.season]
        ++ supportingColorLines semantic.used
    else [insufficientText]
  { status := status
    content := renderBulletText contentLines
    citations := citations
    semanticChunksUsed := semantic.used
    retrievalBreakdown :=
      buildRetrievalBreakdown facts.length semantic.used.length
        semantic.conflictsIgnored.length
    conflictsIgnored := semantic.conflictsIgnored }

/-- The booking-value line of `buildTravelerFitSection` (lines 357-360): a
numeric USD figure for the finance role, a qualitative summary otherwise. -/
def bookingValueLine (hotel : HotelData) (input : QueryInput) : Str :=
  if input.role = RoleType.finance then
    ("Average booking value signal: USD ".toList)
      ++ groupDigits hotel.bookingIntelligence.avgBookingValueUsd ++ (['.'])
  else
    ("Average booking value signal: ".toList)
      ++ hotel.bookingIntelligence.qualitativeSummary ++ (['.'])

/-- The `buildTravelerFitSection` function (line 342). -/
def buildTravelerFitSection (hotel : HotelData) (sources : List SourceRecord)
    (semantic : Semantic) (input : QueryInput) : TextSection :=
  let travelerSpecific := (hotel.travelerFit.byType input.travelerType).getD []
  let travelerSourceIds :=
    hotel.travelerFit.sourceIdsCommon
      ++ (hotel.travelerFit.sourceIdsByType input.travelerType).getD []
      ++ hotel.feedbackThemes.flatMap (·.sourceIds)
  let citations := collectCitations travelerSourceIds sources
  let facts :=
    hotel.travelerFit.common ++ travelerSpecific
      ++ hotel.bookingIntelligence.patterns
      ++ hotel.feedbackThemes.map (·.text)
      ++ [bookingValueLine hotel input]
  let status := if citations.length = 0 then Status.insufficient else Status.ok
  let contentLines :=
    if status = Status.ok then
      (("Traveler type assessed: ".toList)
          ++ travelerLabels input.travelerType ++ (['.']))
        :: hotel.travelerFit.common
        ++ travelerSpecific
        ++ [("Booking intelligence: ".toList)
              ++ joinSep (("; ".toList)) hotel.bookingIntelligence.patterns
              ++ (['.']),
            bookingValueLine hotel input,
            ("Feedback themes: ".toList)
              ++ joinSep ((", ".toList)) (hotel.feedbackThemes.map (·.label))
              ++ (['.'])]
        ++ supportingColorLines semantic.used
    else [insufficientText]
  { status := status
    content := renderBulletText contentLines
    citations := citations
    semanticChunksUsed := semantic.used
    retrievalBreakdown :=
      buildRetrievalBreakdown facts.length semantic.used.length
        semantic.conflictsIgnored.length
    conflictsIgnored := semantic.conflictsIgnored }

/-- JavaScript `severity.toUpperCase()` on the severity strings. -/
def toUpperStr (s : Str) : Str := s.map Char.toUpper

/-- The `buildRisksSection` function (line 400). -/
def buildRisksSection (hotel : HotelData) (sources : List SourceRecord)
    (semantic : Semantic) (input : QueryInput) : TextSection :=
  let relevantRisks := hotel.risks.filter (fun r => input.season ∈ r.seasonRelevance)
  let sourceIds := relevantRisks.flatMap (·.sourceIds)
  let citations := collectCitations sourceIds sources
  let facts := relevantRisks.map (fun r => toUpperStr r.severity ++ ((": ".toList)) ++ r.text)
  let status := if citations.length = 0 then Status.insufficient else Status.ok
  let contentLines :=
    if status = Status.ok then
      (("Season assessed: ".toList) ++ seasonLabels input.season ++ (['.']))
        :: facts
        ++ supportingColorLines semantic.used
    else [insufficientText]
  { status := status
    content := renderBulletText contentLines
    citations := citations
    semanticChunksUsed := semantic.used
    retrievalBreakdown :=
      buildRetrievalBreakdown facts.length semantic.used.length
        semantic.conflictsIgnored.length
    conflictsIgnored := semantic.conflictsIgnored }

/-- The `buildUjvPovSection` function (line 438). -/
def buildUjvPovSection (hotel : HotelData) (sources : List SourceRecord)
    (semantic : Semantic) : TextSection :=
  let citations := collectCitations hotel.ujvPov.sourceIds sources
  let facts := hotel.ujvPov.talkTrack
  let status := if citations.length = 0 then Status.insufficient else Status.ok
  let contentLines :=
    if status = Status.ok then
      hotel.ujvPov.talkTrack ++ supportingColorLines semantic.used
    else [insufficientText]
  { status := status
    content := renderBulletText contentLines
    citations := citations
    semanticChunksUsed := semantic.used
    retrievalBreakdown :=
      buildRetrievalBreakdown facts.length semantic.used.length
        semantic.conflictsIgnored.length
    conflictsIgnored := semantic.conflictsIgnored }

/-- The `buildPromotionsSection` function (line 472): structured data only,
with the promotions-wide conflict log passed in. -/
def buildPromotionsSection (hotel : HotelData) (sources : List SourceRecord)
    (promoConflicts : List ConflictEvent) : PromotionsSection :=
  let sourceIds :=
    hotel.promotions.flatMap (·.sourceIds)
      ++ hotel.contract.sourceIds
      ++ hotel.contract.stackingRules.flatMap (·.sourceIds)
  let citations := collectCitations sourceIds sources
  let status := if citations.length = 0 then Status.insufficient else Status.ok
  { status := status
    content :=
      { promos :=
          if status = Status.ok then
            hotel.promotions.map (fun p =>
              { promoId := p.promoId, name := p.name
                description := p.description, validity := p.validity
                eligibility := p.eligibility })
          else []
        stackingRules :=
          if status = Status.ok then
            hotel.contract.stackingRules.map (fun r =>
              { ruleId := r.ruleId, text := r.text
                allowsCombination := r.allowsCombination
                appliesToPromoIds := r.appliesToPromoIds })
          else [] }
    citations := citations
    semanticChunksUsed := []
    retrievalBreakdown :=
      buildRetrievalBreakdown
        (hotel.promotions.length + hotel.contract.stackingRules.length) 0
        promoConflicts.length
    conflictsIgnored := promoConflicts }

/-- The `collectPromoSemanticConflicts` function (line 630): scans the full
chunk pool of the hotel through the conflict detector for the promotions
section. -/
def collectPromoSemanticConflicts (allChunks : List UnstructuredChunk)
    (hotel : HotelData) : List ConflictEvent :=
  (allChunks.filter (fun c => c.hotelId = hotel.hotelId)).filterMap
    (fun c => detectSemanticConflict c SectionKey.promotions hotel)

/- ### Input validation (`validateInput`, lines 108-143) -/

/-- A JSON value as discriminated by the engine's `typeof` checks. -/
inductive JVal
  | jstr (s : Str)
  | jbool (b : Bool)
  | jnum (q : ℚ)
  | jnull
  | jother
  deriving DecidableEq, Repr

/-- The raw fields of a request body object; an absent field is `none`. -/
structure RawFields where
  hotelId : Option JVal
  travelerType : Option JVal
  season : Option JVal
  role : Option JVal
  includeRisks : Option JVal
  includePromotions : Option JVal
  includeUjvPov : Option JVal
  useLLM : Option JVal
  deriving DecidableEq, Repr

/-- A raw request payload: either not an object (fails `isRecord`) or an
object with the fields above. -/
inductive RawReq
  | notObj
  | obj (f : RawFields)
  deriving DecidableEq, Repr

/-- Extract a string field value, as a `typeof v === "string"` check. -/
def reqString : Option JVal → Option Str
  | some (.jstr s) => some s
  | _ => none

/-- Parse a traveler-type string, as `travelerTypes.includes(x)`. -/
def travelerTypeOfStr (s : Str) : Option TravelerType :=
  if s = ("honeymoon".toList) then some .honeymoon
  else if s = ("multi_gen_family".toList) then some .multi_gen_family
  else if s = ("solo_wellness".toList) then some .solo_wellness
  else if s = ("corporate_executive".toList) then some .corporate_executive
  else none

/-- Parse a season string, as `seasonTypes.includes(x)`. -/
def seasonTypeOfStr (s : Str) : Option SeasonType :=
  if s = ("late_september".toList) then some .late_september
  else if s = ("peak_summer".toList) then some .peak_summer
  else if s = ("shoulder_apr_may".toList) then some .shoulder_apr_may
  else if s = ("low_nov_mar".toList) then some .low_nov_mar
  else none

/-- Parse a role string, as `roleTypes.includes(x)`. -/
def roleTypeOfStr (s : Str) : Option RoleType :=
  if s = ("reservations".toList) then some .reservations
  else if s = ("marketing".toList) then some .marketing
  else if s = ("destination_specialist".toList) then some .destination_specialist
  else if s = ("finance".toList) then some .finance
  else none

/-- The `bool(v, fallback)` helper of `validateInput` (line 131). -/
def boolOr (v : Option JVal) (fallback : Bool) : Bool :=
  match v with
  | some (.jbool b) => b
  | _ => fallback

/-- The `validateInput` function (line 108): reject a non-object body, a
missing or empty `hotelId`, and out-of-enumeration `travelerType`, `season`
or `role`; default the three `include*` flags to true and `useLLM` to false
when absent or non-boolean. -/
def validateInput : RawReq → Except Str QueryInput
  | .notObj => .error ("Invalid request body".toList)
  | .obj f =>
      match reqString f.hotelId with
      | none => .error ("hotelId is required".toList)
      | some h =>
          if h = [] then .error ("hotelId is required".toList)
          else
            match (reqString f.travelerType).bind travelerTypeOfStr with
            | none => .error ("Invalid travelerType".toList)
            | some tt =>
                match (reqString f.season).bind seasonTypeOfStr with
                | none => .error ("Invalid season".toList)
                | some ss =>
                    match (reqString f.role).bind roleTypeOfStr with
                    | none => .error ("Invalid role".toList)
                    | some rr =>
                        .ok { hotelId := h
                              travelerType := tt
                              season := ss
                              includeRisks := boolOr f.includeRisks true
                              includePromotions := boolOr f.includePromotions true
                              includeUjvPov := boolOr f.includeUjvPov true
                              role := rr
                              useLLM := boolOr f.useLLM false }

/- ### Query plan (`buildQueryPlan`, lines 145-185) -/

/-- The `buildQueryPlan` function.  `hasApiKey` models the presence of the
external-service credential (`process.env.OPENAI_API_KEY`); `tCreate` is the
`new Date()` timestamp stored in `createdAt`. -/
def buildQueryPlan (hotel : HotelData) (input : QueryInput)
    (hasApiKey : Bool) (tCreate : ℤ) : QueryPlan :=
  let sectionsRequested :=
    [SectionKey.positioning, SectionKey.travelerFit]
      ++ (if input.includeRisks then [SectionKey.risks] else [])
      ++ (if input.includePromotions then [SectionKey.promotions] else [])
      ++ (if input.includeUjvPov then [SectionKey.ujvPov] else [])
  let globalTerms :=
    uniq [hotel.name, hotel.region, travelerLabels input.travelerType,
          seasonLabels input.season, roleLabels input.role]
  { hotelId := hotel.hotelId
    hotelName := hotel.name
    travelerType := input.travelerType
    season := input.season
    role := input.role
    sectionsRequested := sectionsRequested
    retrievalMode :=
      if input.useLLM && hasApiKey then RetrievalMode.llm_assisted
      else RetrievalMode.mock_synthesis
    globalTerms := globalTerms
    perSection :=
      { positioning := some (uniq (globalTerms ++ sectionKeywords .positioning))
        travelerFit := some (uniq (globalTerms ++ sectionKeywords .travelerFit))
        risks :=
          if input.includeRisks then
            some (uniq (globalTerms ++ sectionKeywords .risks))
          else none
        promotions :=
          if input.includePromotions then
            some (uniq (globalTerms ++ sectionKeywords .promotions))
          else none
        ujvPov :=
          if input.includeUjvPov then
            some (uniq (globalTerms ++ sectionKeywords .ujvPov))
          else none }
    createdAt := tCreate }

/- ### Narrative override gate (`maybeLlmNarrativeOverride`, lines 520-628,
and its application, lines 766-777) -/

/-- The override record returned by the external narrative service: up to
four string-valued keys. -/
structure Overrides where
  positioning : Option Str
  travelerFit : Option Str
  risks : Option Str
  ujvPov : Option Str
  deriving DecidableEq, Repr

/-- The empty override set, returned on skip or on any service failure. -/
def Overrides.empty : Overrides :=
  { positioning := none, travelerFit := none, risks := none, ujvPov := none }

/-- Application of one override (lines 766-777): JavaScript truthiness of the
override string (non-empty) and section status `OK` are both required. -/
def applyOverride (s : TextSection) (o : Option Str) : TextSection :=
  match o with
  | some t =>
      if t ≠ [] ∧ s.status = Status.ok then { s with content := t } else s
  | none => s

/- ### Trust aggregation (`runKnowledgeSpineQuery`, lines 655-899) -/

/-- The fields of a section read uniformly by the aggregation loops
(`Object.values` / `Object.entries` over `responseDraft.sections`). -/
structure SectionView where
  status : Status
  citations : List Citation
  semanticChunksUsed : List UnstructuredChunk
  retrievalBreakdown : RetrievalBreakdown
  conflictsIgnored : List ConflictEvent
  deriving DecidableEq, Repr

/-- View of a text section. -/
def TextSection.view (s : TextSection) : SectionView :=
  { status := s.status, citations := s.citations
    semanticChunksUsed := s.semanticChunksUsed
    retrievalBreakdown := s.retrievalBreakdown
    conflictsIgnored := s.conflictsIgnored }

/-- View of the promotions section. -/
def PromotionsSection.view (s : PromotionsSection) : SectionView :=
  { status := s.status, citations := s.citations
    semanticChunksUsed := s.semanticChunksUsed
    retrievalBreakdown := s.retrievalBreakdown
    conflictsIgnored := s.conflictsIgnored }

/-- The `sections` record of a `QueryResponse` (types.ts): optional sections
are present exactly when requested. -/
structure SectionsRecord where
  positioning : TextSection
  travelerFit : TextSection
  risks : Option TextSection
  promotions : Option PromotionsSection
  ujvPov : Option TextSection
  deriving DecidableEq, Repr

/-- Section key strings as serialized by `Object.entries`. -/
def sectionKeyStr : SectionKey → Str
  | .positioning => ("positioning".toList)
  | .travelerFit => ("travelerFit".toList)
  | .risks => ("risks".toList)
  | .promotions => ("promotions".toList)
  | .ujvPov => ("ujvPov".toList)

/-- `Object.entries(responseDraft.sections)` in insertion order (lines
716-724): positioning, travelerFit, then each optional section if present. -/
def sectionEntries (s : SectionsRecord) : List (SectionKey × SectionView) :=
  [(SectionKey.positioning, s.positioning.view),
   (SectionKey.travelerFit, s.travelerFit.view)]
    ++ (s.risks.map (fun t => (SectionKey.risks, t.view))).toList
    ++ (s.promotions.map (fun t => (SectionKey.promotions, t.view))).toList
    ++ (s.ujvPov.map (fun t => (SectionKey.ujvPov, t.view))).toList

/-- `Object.values(responseDraft.sections)` (line 787). -/
def sectionViews (s : SectionsRecord) : List SectionView :=
  (sectionEntries s).map (·.2)

/-- An item inspected by the freshness policy loop
(`selectSectionSourceItems`, line 639). -/
structure SourceItem where
  date : ℤ
  type : SourceType
  label : Str
  deriving DecidableEq, Repr

/-- The `selectSectionSourceItems` function: citations then used chunks. -/
def selectSectionSourceItems (v : SectionView) : List SourceItem :=
  v.citations.map (fun c =>
      { date := c.date, type := c.type
        label := c.sourceId ++ ((" (".toList)) ++ sourceTypeStr c.type ++ ([')']) })
    ++ v.semanticChunksUsed.map (fun c =>
      { date := c.date, type := c.sourceType
        label := c.chunkId ++ ((" (".toList)) ++ sourceTypeStr c.sourceType ++ ([')']) })

/-- A freshness policy warning string (line 840). -/
def mkPolicyWarning (key : SectionKey) (item : SourceItem)
    (maxAge age : ℤ) : Str :=
  sectionKeyStr key ++ ((": ".toList)) ++ item.label
    ++ ((" exceeds max age ".toList)) ++ intToStr maxAge
    ++ (("d (age ".toList)) ++ intToStr age ++ (("d)".toList))

/-- The evidence-strength score before rounding (lines 799-803): base from
total citations, reliability factor, recency bonus, capped semantic bonus,
clamped into the unit interval. -/
def evidenceScore (totalCitations : ℕ) (avgReliability : ℚ)
    (anyRecent : Bool) (semanticCount : ℕ) : ℚ :=
  let semanticBonus := min (2 / 100) ((semanticCount : ℚ) * (1 / 100))
  let base := min 1 ((totalCitations : ℚ) / 8)
  let recencyBonus : ℚ := if anyRecent then 5 / 100 else 0
  let reliabilityFactor := avgReliability * (9 / 10)
  clamp (base * reliabilityFactor + recencyBonus + semanticBonus) 0 1

/-- The freshness summary dates of the trust payload, as day indices of the
ISO dates rendered by `formatDate(maxDate(...))`. -/
structure FreshnessSummary where
  promotionsLastVerifiedDate : Option ℤ
  mostRecentSiteVisitDate : Option ℤ
  lastFeedbackDate : Option ℤ
  lastSemanticChunkDate : Option ℤ
  deriving DecidableEq, Repr

/-- The usage stats of the trust payload. -/
structure TrustStats where
  structuredSourcesUsed : ℕ
  unstructuredSourcesUsed : ℕ
  semanticChunksUsed : ℕ
  structuredFactsUsed : ℕ
  conflictsIgnored : ℕ
  deriving DecidableEq, Repr

/-- The guardrail booleans of the trust payload. -/
structure Guardrails where
  canonicalOverridesNotes : Bool
  promotionsFromContractOnly : Bool
  allSectionsBackedByCitations : Bool
  sensitiveDataRestrictedByRole : Bool
  withinFreshnessPolicy : Compliance
  policyWarnings : List Str
  deriving DecidableEq, Repr

/-- The `TrustPayload` (types.ts). -/
structure TrustPayload where
  evidenceStrengthScore : ℚ
  evidenceStrengthLabel : StrengthLabel
  freshness : FreshnessSummary
  stats : TrustStats
  guardrails : Guardrails
  policyCompliance : Compliance
  policySnapshot : HotelPolicy
  escalationNeeded : Bool
  escalationReason : Str
  deriving DecidableEq, Repr

/-- A `QueryResponse` (types.ts). -/
structure QueryResponse where
  queryPlan : QueryPlan
  sections : SectionsRecord
  trust : TrustPayload
  deriving DecidableEq, Repr

/-- The escalation reason for a low evidence-strength score (line 859). -/
def reasonLowScore (score : ℚ) : Str :=
  ("Reason: Evidence Strength below threshold (0.6). Current score ".toList)
    ++ fmt2 score

/-- The escalation reason for missing promotion sources (line 861). -/
def reasonPromoMissing : Str :=
  ("Reason: Promotions requested but no verified promotions/contract sources were found.".toList)

/-- The escalation reason for an insufficient traveler-fit section (line 863). -/
def reasonTravelerFit : Str :=
  ("Reason: Traveler Fit section lacks sufficient verified evidence.".toList)

/-- The escalation reason for a freshness policy warning (line 865). -/
def reasonPolicyWarn : Str :=
  ("Reason: Policy freshness WARN.".toList)

/-- The success path of `runKnowledgeSpineQuery` (lines 655-899) on a
validated input: retrieval, section building, narrative override
application, and trust aggregation.  `llmResult` is the external narrative
service's parsed result; it is consulted only when `useLLM` and the
credential are both present, exactly as `maybeLlmNarrativeOverride` returns
`{}` otherwise.  `tCreate` is the clock reading stored in the query plan's
`createdAt`; `tAge` is the clock reading used by every `daysOld` call during
aggregation. -/
def runQueryCore (input : QueryInput) (hotel : HotelData)
    (allSources : List SourceRecord) (allChunks : List UnstructuredChunk)
    (llmResult : Overrides) (hasApiKey : Bool) (tCreate tAge : ℤ) :
    QueryResponse :=
  let queryPlan := buildQueryPlan hotel input hasApiKey tCreate
  let positioningSemantic :=
    retrieveSemanticChunks allChunks hotel .positioning
      (queryPlan.perSection.positioning.getD []) 3
  let travelerSemantic :=
    retrieveSemanticChunks allChunks hotel .travelerFit
      (queryPlan.perSection.travelerFit.getD []) 3
  let risksSemantic :=
    if input.includeRisks then
      some (retrieveSemanticChunks allChunks hotel .risks
        (queryPlan.perSection.risks.getD []) 3)
    else none
  let ujvSemantic :=
    if input.includeUjvPov then
      some (retrieveSemanticChunks allChunks hotel .ujvPov
        (queryPlan.perSection.ujvPov.getD []) 3)
    else none
  let promoConflicts :=
    if input.includePromotions then collectPromoSemanticConflicts allChunks hotel
    else []
  let positioning0 := buildPositioningSection hotel allSources positioningSemantic input
  let travelerFit0 := buildTravelerFitSection hotel allSources travelerSemantic input
  let risks0 := risksSemantic.map (fun s => buildRisksSection hotel allSources s input)
  let promotions :=
    if input.includePromotions then
      some (buildPromotionsSection hotel allSources promoConflicts)
    else none
  let ujvPov0 := ujvSemantic.map (fun s => buildUjvPovSection hotel allSources s)
  let llmOverrides :=
    if input.useLLM && hasApiKey then llmResult else Overrides.empty
  let sections : SectionsRecord :=
    { positioning := applyOverride positioning0 llmOverrides.positioning
      travelerFit := applyOverride travelerFit0 llmOverrides.travelerFit
      risks := risks0.map (fun s => applyOverride s llmOverrides.risks)
      promotions := promotions
      ujvPov := ujvPov0.map (fun s => applyOverride s llmOverrides.ujvPov) }
  let entries := sectionEntries sections
  let requestedSections := entries.map (·.2)
  let allCitations := requestedSections.flatMap (·.citations)
  let totalCitations := allCitations.length
  let avgReliability : ℚ :=
    if 0 < allCitations.length then
      (allCitations.map (·.reliability)).sum / (allCitations.length : ℚ)
    else 0
  let anyRecent := allCitations.any (fun c => daysOld c.date tAge ≤ 120)
  let nonConflictingSemanticCount :=
    (requestedSections.map (·.semanticChunksUsed.length)).sum
  let score := evidenceScore totalCitations avgReliability anyRecent
    nonConflictingSemanticCount
  let evidenceStrengthLabel :=
    if 3 / 4 ≤ score then StrengthLabel.high
    else if 3 / 5 ≤ score then StrengthLabel.medium
    else StrengthLabel.low
  let uniqueCitationSources :=
    (uniq (allCitations.map (·.sourceId))).filterMap (sourceLookup allSources)
  let structuredSourcesUsed :=
    (uniqueCitationSources.filter
      (fun s => s.type ∉ unstructuredSourceTypes)).length
  let unstructuredSourcesUsed :=
    (uniqueCitationSources.filter
      (fun s => s.type ∈ unstructuredSourceTypes)).length
  let structuredFactsUsed :=
    (requestedSections.map (·.retrievalBreakdown.structuredFactsCount)).sum
  let conflictsIgnoredTotal :=
    (requestedSections.map (·.conflictsIgnored.length)).sum
  let promotionsDates :=
    match promotions with
    | some ps =>
        (ps.citations.filter
            (fun c => c.type = SourceType.promotion ∨ c.type = SourceType.contract)).map
          (fun c =>
            match sourceLookup allSources c.sourceId with
            | some s => s.lastVerifiedAt
            | none => c.date)
    | none => []
  let siteVisitDates :=
    (uniqueCitationSources.filter (fun s => s.type = SourceType.site_visit)).map
      (·.date)
  let feedbackDates :=
    (uniqueCitationSources.filter
        (fun s => s.type = SourceType.post_trip_feedback)).map (·.date)
  let semanticDates :=
    requestedSections.flatMap (fun s => s.semanticChunksUsed.map (·.date))
  let policyWarnings :=
    entries.flatMap (fun e =>
      (selectSectionSourceItems e.2).filterMap (fun item =>
        match hotel.policy.maxAgeFor item.type with
        | none => none
        | some maxAge =>
            let age := daysOld item.date tAge
            if maxAge < age then some (mkPolicyWarning e.1 item maxAge age)
            else none))
  let withinFreshnessPolicy :=
    if policyWarnings ≠ [] then Compliance.warn else Compliance.pass
  let allSectionsBackedByCitations :=
    requestedSections.all
      (fun s => 0 < s.citations.length ∧ s.status = Status.ok)
  let sensitiveDataRestrictedByRole :=
    (input.role = RoleType.finance)
      || !(containsStr sections.travelerFit.content
            (natToStr hotel.bookingIntelligence.avgBookingValueUsd))
  let travelerFitInsufficient :=
    sections.travelerFit.status = Status.insufficient
  let promotionsMissingSources :=
    input.includePromotions
      && ((promotions.map (·.citations.length)).getD 0 = 0)
  let policyWarn := withinFreshnessPolicy = Compliance.warn
  let escalationNeeded : Bool :=
    decide (score < 3 / 5) || promotionsMissingSources
      || travelerFitInsufficient || policyWarn
  let escalationReason :=
    if score < 3 / 5 then reasonLowScore score
    else if promotionsMissingSources then reasonPromoMissing
    else if travelerFitInsufficient then reasonTravelerFit
    else if policyWarn then reasonPolicyWarn
    else []
  { queryPlan := queryPlan
    sections := sections
    trust :=
      { evidenceStrengthScore := round2 score
        evidenceStrengthLabel := evidenceStrengthLabel
        freshness :=
          { promotionsLastVerifiedDate := (maxDateM promotionsDates).map dayIndex
            mostRecentSiteVisitDate := (maxDateM siteVisitDates).map dayIndex
            lastFeedbackDate := (maxDateM feedbackDates).map dayIndex
            lastSemanticChunkDate := (maxDateM semanticDates).map dayIndex }
        stats :=
          { structuredSourcesUsed := structuredSourcesUsed
            unstructuredSourcesUsed := unstructuredSourcesUsed
            semanticChunksUsed := nonConflictingSemanticCount
            structuredFactsUsed := structuredFactsUsed
            conflictsIgnored := conflictsIgnoredTotal }
        guardrails :=
          { canonicalOverridesNotes := decide (0 < conflictsIgnoredTotal)
            promotionsFromContractOnly := true
            allSectionsBackedByCitations := allSectionsBackedByCitations
            sensitiveDataRestrictedByRole := sensitiveDataRestrictedByRole
            withinFreshnessPolicy := withinFreshnessPolicy
            policyWarnings := policyWarnings }
        policyCompliance := withinFreshnessPolicy
        policySnapshot := hotel.policy
        escalationNeeded := escalationNeeded
        escalationReason := escalationReason } }

/-- The error taxonomy of the engine entry point: validation failures and
the not-found failure (`status = 404`) are surfaced distinctly. -/
inductive QueryError
  | invalid (msg : Str)
  | notFound (msg : Str)
  deriving DecidableEq, Repr

/-- The `runKnowledgeSpineQuery` entry point (line 655): validate the raw
payload, check the hotel id against the canonical record, then run the
engine core. -/
def runKnowledgeSpineQuery (payload : RawReq) (hotel : HotelData)
    (allSources : List SourceRecord) (allChunks : List UnstructuredChunk)
    (llmResult : Overrides) (hasApiKey : Bool) (tCreate tAge : ℤ) :
    Except QueryError QueryResponse :=
  match validateInput payload with
  | .error msg => .error (.invalid msg)
  | .ok input =>
      if hotel.hotelId ≠ input.hotelId then
        .error (.notFound (("Hotel not found: ".toList) ++ input.hotelId))
      else
        .ok (runQueryCore input hotel allSources allChunks llmResult hasApiKey
          tCreate tAge)

/- ### Claim-side quantities recomputed from a finished response -/

/-- The section views of a response, in aggregation order. -/
def responseViews (r : QueryResponse) : List SectionView :=
  sectionViews r.sections

/-- All citations of a response, concatenated across produced sections. -/
def allCitationsOf (r : QueryResponse) : List Citation :=
  (responseViews r).flatMap (·.citations)

/-- The total citation count the engine feeds into the evidence score. -/
def totalCitationsOf (r : QueryResponse) : ℕ := (allCitationsOf r).length

/-- The average citation reliability over a response (0 if none). -/
def avgReliabilityOf (r : QueryResponse) : ℚ :=
  if 0 < (allCitationsOf r).length then
    ((allCitationsOf r).map (·.reliability)).sum / ((allCitationsOf r).length : ℚ)
  else 0

/-- The recency flag over a response: some citation aged at most 120 days. -/
def anyRecentOf (r : QueryResponse) (tAge : ℤ) : Bool :=
  (allCitationsOf r).any (fun c => daysOld c.date tAge ≤ 120)

/-- The clean semantic chunks used across a response's sections. -/
def semanticCountOf (r : QueryResponse) : ℕ :=
  ((responseViews r).map (·.semanticChunksUsed.length)).sum

/-- The pre-rounding evidence score recomputed from a response's sections. -/
def preScoreOf (r : QueryResponse) (tAge : ℤ) : ℚ :=
  evidenceScore (totalCitationsOf r) (avgReliabilityOf r) (anyRecentOf r tAge)
    (semanticCountOf r)

/-- Evidence-strength score exactly as the specification sentence words it:
`totalCitations` is the number of UNIQUE citations across all produced
sections (and the average and recency range over those unique citations).
The engine itself does not de-duplicate citations across sections; this
definition exists to compare the specification's wording with the code. -/
def specUniqueEvidenceScore (r : QueryResponse) (tAge : ℤ) : ℚ :=
  let cs := uniq (allCitationsOf r)
  let avg : ℚ :=
    if 0 < cs.length then (cs.map (·.reliability)).sum / (cs.length : ℚ) else 0
  let recent := cs.any (fun c => daysOld c.date tAge ≤ 120)
  round2 (clamp
    (min 1 ((cs.length : ℚ) / 8) * (avg * (9 / 10))
      + (if recent then 5 / 100 else 0)
      + min (2 / 100) ((semanticCountOf r : ℚ) * (1 / 100))) 0 1)

/-- A response with its `createdAt` timestamp scrubbed, to compare two
responses up to the embedded creation time. -/
def eraseCreatedAt (r : QueryResponse) : QueryResponse :=
  { r with queryPlan := { r.queryPlan with createdAt := 0 } }

/-- Acceptance condition of `validateInput`, stated over the raw payload:
an object body, a non-empty string `hotelId`, and enumeration members for
`travelerType`, `season` and `role`. -/
def ValidRaw (r : RawReq) : Prop :=
  ∃ f, r = RawReq.obj f
    ∧ (∃ h, reqString f.hotelId = some h ∧ h ≠ [])
    ∧ (∃ t, (reqString f.travelerType).bind travelerTypeOfStr = some t)
    ∧ (∃ s, (reqString f.season).bind seasonTypeOfStr = some s)
    ∧ (∃ ro, (reqString f.role).bind roleTypeOfStr = some ro)

/- ### Digit-tracking for the role-based booking-value redaction -/

/-- The literal numeric average-booking-value figure as rendered into the
finance-role traveler-fit line (`avgBookingValueUsd.toLocaleString()`). -/
def bookingFigure (hotel : HotelData) : Str :=
  groupDigits hotel.bookingIntelligence.avgBookingValueUsd

/-- A character the booking-value figure can consist of: a decimal digit or
the grouping comma. -/
def figChar (c : Char) : Bool := c.isDigit || c = ','

/-- Every character of the string is a possible figure character. -/
def allFigChar (p : Str) : Prop := ∀ c ∈ p, figChar c = true

/-- No character of the string is a possible figure character: such a
string can neither contain the figure nor bridge an occurrence of it. -/
def figFree (s : Str) : Prop := ∀ c ∈ s, figChar c = false

/-- Modelled from the spec: the documented sample dataset (it is not part
of the engine sources) backs the traveler-fit section with at least one
citation and the literal booking-value figure never occurs inside its
prose fields or chunk titles.  This predicate captures that figure-freeness
for the strings the traveler-fit builder renders. -/
def FigureFreeProse (hotel : HotelData) (input : QueryInput)
    (allChunks : List UnstructuredChunk) : Prop :=
  (∀ l ∈ hotel.travelerFit.common, ¬ bookingFigure hotel <:+: l)
    ∧ (∀ l ∈ (hotel.travelerFit.byType input.travelerType).getD [], ¬ bookingFigure hotel <:+: l)
    ∧ (∀ l ∈ hotel.bookingIntelligence.patterns, ¬ bookingFigure hotel <:+: l)
    ∧ ¬ bookingFigure hotel <:+: hotel.bookingIntelligence.qualitativeSummary
    ∧ (∀ t ∈ hotel.feedbackThemes, ¬ bookingFigure hotel <:+: t.label)
    ∧ (∀ ch ∈ allChunks, ¬ bookingFigure hotel <:+: ch.title)

/- ### Concrete sample data for witnesses and counterexamples -/

/-- A policy with no configured age limit for any source type. -/
def policyNone : HotelPolicy :=
  { site_visit := none, post_trip_feedback := none
    booking_intelligence := none, contract := none, promotion := none
    ujv_pov := none, unstructured_chunk := none }

/-- A sample source record with a given id and reliability. -/
def srcOf (id : Str) (rel : ℚ) : SourceRecord :=
  { sourceId := id, type := .site_visit, title := [], author := [], date := 0,
    system := [], reliability := rel, snippet := [], ownerTeam := [],
    version := [], docRef := [], lastVerifiedAt := 0 }

/-- A minimal hotel record every sample below extends. -/
def hotelEmpty : HotelData :=
  { hotelId := ("h1".toList), name := ("Zq".toList), country := [],
    region := ("Xw".toList), category := [], ownerTeam := [], version := [],
    lastUpdatedAt := 0, policy := policyNone,
    positioningTags := [("privacy-led".toList)],
    positioning := { strengths := [], sourceIds := [] },
    travelerFit := { common := [], byType := fun _ => none,
                     sourceIdsCommon := [], sourceIdsByType := fun _ => none },
    seasonality := fun _ => [],
    risks := [], promotions := [],
    contract := { sourceIds := [], stackingRules := [] },
    bookingIntelligence := { avgBookingValueUsd := 12500,
                             qualitativeSummary := ("healthy".toList),
                             patterns := [], sourceIds := [] },
    feedbackThemes := [],
    ujvPov := { talkTrack := [], sourceIds := [] } }

/-- A sample validated request: hotel `h1`, honeymoon, late September,
reservations role, deterministic mode, no optional sections. -/
def reqBase : QueryInput :=
  { hotelId := ("h1".toList), travelerType := .honeymoon,
    season := .late_september, includeRisks := false,
    includePromotions := false, includeUjvPov := false,
    role := .reservations, useLLM := false }

/-- An aggregation-time clock reading 200 days after the epoch the sample
source dates sit at, so no sample citation counts as recent. -/
def tAgeSample : ℤ := 17280000000

/-- Sample hotel whose sections resolve eight citations in total: three via
positioning, three via traveler fit, two via the contract block. -/
def hotelEight : HotelData :=
  { hotelEmpty with
    positioning := { strengths := [],
                     sourceIds := [("s1".toList), ("s2".toList), ("s3".toList)] },
    travelerFit := { common := [], byType := fun _ => none,
                     sourceIdsCommon := [("s4".toList), ("s5".toList), ("s6".toList)],
                     sourceIdsByType := fun _ => none },
    contract := { sourceIds := [("s7".toList), ("s8".toList)],
                  stackingRules := [] } }

/-- Eight sources of reliability 149/225, chosen so the pre-rounding
evidence score is exactly 0.596. -/
def sourcesEight : List SourceRecord :=
  [srcOf ("s1".toList) (149/225), srcOf ("s2".toList) (149/225),
   srcOf ("s3".toList) (149/225), srcOf ("s4".toList) (149/225),
   srcOf ("s5".toList) (149/225), srcOf ("s6".toList) (149/225),
   srcOf ("s7".toList) (149/225), srcOf ("s8".toList) (149/225)]

/-- The request for the eight-citation sample: promotions included. -/
def reqEight : QueryInput := { reqBase with includePromotions := true }

/-- Sample hotel citing the same source from both the positioning and the
traveler-fit sections. -/
def hotelShared : HotelData :=
  { hotelEmpty with
    positioning := { strengths := [], sourceIds := [("s1".toList)] },
    travelerFit := { common := [], byType := fun _ => none,
                     sourceIdsCommon := [("s1".toList)],
                     sourceIdsByType := fun _ => none } }

/-- The single source of the shared-citation sample. -/
def sourcesShared : List SourceRecord := [srcOf ("s1".toList) (4/5)]

/-- A chunk claiming the 4th-night and early-booking promotions combine:
it trips the stacking-claim conflict rule, but matches none of the
positioning query terms, so its keyword score for that section is zero. -/
def chunkStack : UnstructuredChunk :=
  { chunkId := ("ch1".toList), hotelId := ("h1".toList),
    sourceType := .unstructured_chunk, title := ("Promo note".toList),
    date := 0, reliability := 1/2,
    text := ("guests can stack the 4th night offer with early booking deals".toList),
    ownerTeam := [], version := [], docRef := [] }

/-- Sample hotel with a non-stackable contract rule naming a promotion. -/
def hotelStack : HotelData :=
  { hotelEmpty with
    contract := { sourceIds := [],
                  stackingRules := [{ ruleId := ("r1".toList),
                                      text := ("no combining".toList),
                                      allowsCombination := false,
                                      appliesToPromoIds := [("p1".toList)],
                                      sourceIds := [] }] } }

/-- The conflict event the detector emits for `chunkStack` against
`hotelStack`. -/
def eventStack : ConflictEvent :=
  { chunkId := ("ch1".toList)
    reason := ("Chunk claims promo combinability that conflicts with contract stacking rules.".toList)
    structuredRuleRef := ("contract.stackingRules.r1".toList) }

/-- A sample raw payload: valid strings for the required fields, a null
`includeRisks`, and no `useLLM` field. -/
def rawFieldsSample : RawFields :=
  { hotelId := some (.jstr ("h1".toList))
    travelerType := some (.jstr ("honeymoon".toList))
    season := some (.jstr ("late_september".toList))
    role := some (.jstr ("reservations".toList))
    includeRisks := some .jnull
    includePromotions := some (.jbool false)
    includeUjvPov := some (.jnum 3)
    useLLM := none }

/-- The sample raw payload as a request body. -/
def rawSample : RawReq := RawReq.obj rawFieldsSample

/-- A finance-role variant of the sample request. -/
def reqFinance : QueryInput := { reqBase with role := .finance }

/-- A narrative-assisted variant of the sample request (`useLLM` true). -/
def reqLLM : QueryInput := { reqBase with useLLM := true }

/-- An external narrative payload whose traveler-fit rewrite quotes the
booking-value figure verbatim. -/
def overrideWithFigure : Overrides :=
  { positioning := none
    travelerFit := some (("Typical spend is about USD ".toList)
      ++ groupDigits 12500 ++ (['.']))
    risks := none
    ujvPov := none }

/- ### General lemmas about the embedded helpers -/

/-- The status computed from a citation list is `OK` exactly when the list
is non-empty. -/
theorem status_ok_iff (c : List Citation) :
    (if c.length = 0 then Status.insufficient else Status.ok) = Status.ok ↔ c ≠ [] := by
  cases c <;> simp

/-- A narrative override never changes a section's status. -/
theorem applyOverride_status (s : TextSection) (o : Option Str) :
    (applyOverride s o).status = s.status := by
  cases o with
  | none => rfl
  | some t =>
      show (if t ≠ [] ∧ s.status = Status.ok then { s with content := t } else s).status
        = s.status
      split <;> rfl

/-- A narrative override never changes a section's citations. -/
theorem applyOverride_citations (s : TextSection) (o : Option Str) :
    (applyOverride s o).citations = s.citations := by
  cases o with
  | none => rfl
  | some t =>
      show (if t ≠ [] ∧ s.status = Status.ok then { s with content := t } else s).citations
        = s.citations
      split <;> rfl

/-- Any section whose status is the standard citation test satisfies the
status-citation equivalence. -/
theorem builder_view_ok_iff (s : TextSection)
    (hs : s.status = (if s.citations.length = 0 then Status.insufficient else Status.ok)) :
    s.status = Status.ok ↔ s.citations ≠ [] := by
  rw [hs]; exact status_ok_iff s.citations

/-- Every chunk kept by the retrieval walk is conflict-free. -/
theorem walk_used_clean (hotel : HotelData) (sk : SectionKey)
    (l : List UnstructuredChunk) (n : ℕ) (c : UnstructuredChunk)
    (hc : c ∈ (retrieveWalk hotel sk l n).1) :
    detectSemanticConflict c sk hotel = none := by
  induction l generalizing n with
  | nil => simp [retrieveWalk] at hc
  | cons hd tl ih =>
      rw [retrieveWalk] at hc
      rcases hdet : detectSemanticConflict hd sk hotel with _ | e
      · rw [hdet] at hc
        simp only at hc
        by_cases hn : n ≤ 1
        · rw [if_pos hn] at hc
          simp at hc
          subst hc
          exact hdet
        · rw [if_neg hn] at hc
          simp at hc
          rcases hc with rfl | hc
          · exact hdet
          · exact ih _ hc
      · rw [hdet] at hc
        simp only at hc
        exact ih _ hc

/-- A chunk the conflict detector flags never lands in the retriever's
used list. -/
theorem retrieve_used_clean (allChunks : List UnstructuredChunk) (hotel : HotelData)
    (sk : SectionKey) (terms : List Str) (topN : ℕ) (c : UnstructuredChunk)
    (e : ConflictEvent)
    (hdet : detectSemanticConflict c sk hotel = some e) :
    c ∉ (retrieveSemanticChunks allChunks hotel sk terms topN).used := by
  intro hmem
  have := walk_used_clean hotel sk _ topN c hmem
  rw [hdet] at this
  cases this

/-- Every conflicting chunk of the hotel appears in the promotions-wide
conflict scan. -/
theorem promo_conflicts_complete (allChunks : List UnstructuredChunk)
    (hotel : HotelData) (c : UnstructuredChunk) (e : ConflictEvent)
    (hc : c ∈ allChunks) (hh : c.hotelId = hotel.hotelId)
    (hdet : detectSemanticConflict c SectionKey.promotions hotel = some e) :
    e ∈ collectPromoSemanticConflicts allChunks hotel := by
  unfold collectPromoSemanticConflicts
  rw [List.mem_filterMap]
  exact ⟨c, by rw [List.mem_filter]; exact ⟨hc, by simp [hh]⟩, hdet⟩

/-- Each part occurs contiguously inside its separator-join. -/
theorem joinSep_contains_mem (sep : Str) (xs : List Str) (x : Str)
    (hx : x ∈ xs) : x <:+: joinSep sep xs := by
  induction xs with
  | nil => simp at hx
  | cons hd tl ih =>
      cases tl with
      | nil =>
          rw [List.mem_singleton] at hx
          subst hx
          exact ⟨[], [], by simp [joinSep]⟩
      | cons y zs =>
          rcases List.mem_cons.mp hx with rfl | hmem
          · show x <:+: x ++ sep ++ joinSep sep (y :: zs)
            exact ⟨[], sep ++ joinSep sep (y :: zs), by simp⟩
          · obtain ⟨s, t, hst⟩ := ih hmem
            show x <:+: hd ++ sep ++ joinSep sep (y :: zs)
            exact ⟨hd ++ sep ++ s, t, by rw [← hst]; simp⟩

/-- A contiguous occurrence survives two prepended characters. -/
theorem contains_cons_cons (a b : Char) (x l : Str) (h : x <:+: l) :
    x <:+: a :: b :: l := by
  obtain ⟨s, t, hst⟩ := h
  exact ⟨a :: b :: s, t, by rw [← hst]; rfl⟩

/-- A contiguous occurrence inside a concatenation lies in the left part,
in the right part, or splits into a non-empty tail of the left part
followed by a non-empty head of the right part. -/
theorem contains_append_split (p a b : Str) (h : p <:+: a ++ b) :
    p <:+: a ∨ p <:+: b
      ∨ ∃ p1 p2, p = p1 ++ p2 ∧ p1 ≠ [] ∧ p2 ≠ []
          ∧ (∃ s, s ++ p1 = a) ∧ (∃ t, p2 ++ t = b) := by
  obtain ⟨s, t, hst⟩ := h
  rcases List.append_eq_append_iff.mp hst with ⟨w, hw1, hw2⟩ | ⟨c', hc1, hc2⟩
  · exact Or.inl ⟨s, w, hw1.symm⟩
  · rcases List.append_eq_append_iff.mp hc1 with ⟨x, hx1, hx2⟩ | ⟨y, hy1, hy2⟩
    · rcases hx0 : x with _ | ⟨x0, x'⟩
      · subst hx0
        rw [List.nil_append] at hx2
        refine Or.inr (Or.inl ⟨[], t, ?_⟩)
        rw [List.nil_append, hx2, ← hc2]
      · rcases hc0 : c' with _ | ⟨c0, c''⟩
        · subst hc0
          rw [List.append_nil] at hx2
          refine Or.inl ⟨s, [], ?_⟩
          rw [List.append_nil, hx2, ← hx1]
        · refine Or.inr (Or.inr ⟨x, c', hx2, ?_, ?_, ⟨s, hx1.symm⟩, ⟨t, hc2.symm⟩⟩)
          · rw [hx0]
            exact List.cons_ne_nil x0 x'
          · rw [hc0]
            exact List.cons_ne_nil c0 c''
    · refine Or.inr (Or.inl ⟨y, t, ?_⟩)
      rw [hc2, hy2]

/-- Figure-character-freeness from a bounded check. -/
theorem figFree_of_all (s : Str) (h : ∀ c ∈ s, figChar c = false) : figFree s := h

/-- A non-empty string of figure characters cannot occur inside a
figure-character-free string. -/
theorem noFig_of_figFree (p s : Str) (hp : p ≠ []) (hA : allFigChar p)
    (hs : figFree s) : ¬ p <:+: s := by
  intro h
  rcases hp0 : p with _ | ⟨c, p'⟩
  · exact hp hp0
  · have hcp : c ∈ p := by rw [hp0]; exact List.mem_cons_self c p'
    have hc : c ∈ s := h.subset (hp0 ▸ List.mem_cons_self c p')
    have hf := hs c hc
    rw [hA c hcp] at hf
    cases hf

/-- A non-empty string of figure characters cannot occur inside a
concatenation whose left part is figure-character-free and whose right part
does not contain it: the left part can neither hold nor bridge an
occurrence. -/
theorem noFig_append_left (p a b : Str) (hp : p ≠ []) (hA : allFigChar p)
    (ha : figFree a) (hb : ¬ p <:+: b) : ¬ p <:+: a ++ b := by
  intro h
  rcases contains_append_split p a b h with h1 | h1 | ⟨p1, p2, hpp, h1ne, h2ne, ⟨s, hs⟩, -⟩
  · exact noFig_of_figFree p a hp hA ha h1
  · exact hb h1
  · rcases hp1 : p1 with _ | ⟨c, p1'⟩
    · exact h1ne hp1
    · have hca : c ∈ a := by
        rw [← hs, hp1]
        exact List.mem_append_right s (List.mem_cons_self c p1')
      have hcp : c ∈ p := by
        rw [hpp, hp1]
        exact List.mem_append_left _ (List.mem_cons_self c p1')
      have hf := ha c hca
      rw [hA c hcp] at hf
      cases hf

/-- The mirror image of `noFig_append_left` for a figure-character-free
right part. -/
theorem noFig_append_right (p a b : Str) (hp : p ≠ []) (hA : allFigChar p)
    (ha : ¬ p <:+: a) (hb : figFree b) : ¬ p <:+: a ++ b := by
  intro h
  rcases contains_append_split p a b h with h1 | h1 | ⟨p1, p2, hpp, h1ne, h2ne, -, ⟨t, ht⟩⟩
  · exact ha h1
  · exact noFig_of_figFree p b hp hA hb h1
  · rcases hp2 : p2 with _ | ⟨c, p2'⟩
    · exact h2ne hp2
    · have hcb : c ∈ b := by
        rw [← ht, hp2]
        exact List.mem_append_left _ (List.mem_cons_self c p2')
      have hcp : c ∈ p := by
        rw [hpp, hp2]
        exact List.mem_append_right _ (List.mem_cons_self c p2')
      have hf := hb c hcb
      rw [hA c hcp] at hf
      cases hf

/-- A non-empty string of figure characters cannot occur inside a
separator-join whose separator is non-empty and figure-character-free and
whose parts do not contain it. -/
theorem noFig_joinSep_figFree (p sep : Str) (xs : List Str) (hp : p ≠ [])
    (hA : allFigChar p) (hsep : figFree sep) (hsepne : sep ≠ [])
    (hxs : ∀ x ∈ xs, ¬ p <:+: x) : ¬ p <:+: joinSep sep xs := by
  induction xs with
  | nil =>
      intro h
      obtain ⟨s, t, hst⟩ := h
      rw [show joinSep sep [] = [] from rfl] at hst
      have h1 := (List.append_eq_nil.mp hst).1
      exact hp (List.append_eq_nil.mp h1).2
  | cons x tl ih =>
      cases tl with
      | nil => exact hxs x (List.mem_singleton_self x)
      | cons y rest =>
          intro h
          rw [show joinSep sep (x :: y :: rest) = x ++ sep ++ joinSep sep (y :: rest) from rfl,
            List.append_assoc] at h
          rcases contains_append_split p x (sep ++ joinSep sep (y :: rest)) h with
            h1 | h1 | ⟨p1, p2, hpp, h1ne, h2ne, -, ⟨t2, ht2⟩⟩
          · exact hxs x (List.mem_cons_self _ _) h1
          · exact noFig_append_left p sep _ hp hA hsep
              (ih (fun z hz => hxs z (List.mem_cons_of_mem x hz))) h1
          · rcases hp2 : p2 with _ | ⟨c, p2'⟩
            · exact h2ne hp2
            · rcases hsep0 : sep with _ | ⟨s0, sep'⟩
              · exact hsepne hsep0
              · rw [hp2, hsep0, List.cons_append, List.cons_append] at ht2
                injection ht2 with hc htl
                have hcp : c ∈ p := by
                  rw [hpp, hp2]
                  exact List.mem_append_right _ (List.mem_cons_self c p2')
                have hf := hsep c (by rw [hsep0, hc]; exact List.mem_cons_self s0 sep')
                rw [hA c hcp] at hf
                cases hf

/-- A non-empty string of figure characters that neither ends with a comma
nor occurs in any part cannot occur inside a comma-space join of the parts:
a bridged occurrence would either end at the comma or contain the space. -/
theorem noFig_joinSep_commaSpace (p : Str) (xs : List Str) (hp : p ≠ [])
    (hA : allFigChar p) (hlastc : ∀ q, p ≠ q ++ ([',']))
    (hxs : ∀ x ∈ xs, ¬ p <:+: x) : ¬ p <:+: joinSep ((", ".toList)) xs := by
  have hspace : figChar ' ' = false := by decide
  induction xs with
  | nil =>
      intro h
      obtain ⟨s, t, hst⟩ := h
      rw [show joinSep ((", ".toList)) [] = [] from rfl] at hst
      have h1 := (List.append_eq_nil.mp hst).1
      exact hp (List.append_eq_nil.mp h1).2
  | cons x tl ih =>
      cases tl with
      | nil => exact hxs x (List.mem_singleton_self x)
      | cons y rest =>
          intro h
          rw [show joinSep ((", ".toList)) (x :: y :: rest)
              = x ++ ((", ".toList)) ++ joinSep ((", ".toList)) (y :: rest) from rfl,
            List.append_assoc] at h
          rcases contains_append_split p x ((", ".toList) ++ joinSep ((", ".toList)) (y :: rest)) h with
            h1 | h1 | ⟨p1, p2, hpp, h1ne, h2ne, -, ⟨t2, ht2⟩⟩
          · exact hxs x (List.mem_cons_self _ _) h1
          · rcases contains_append_split p ((", ".toList)) (joinSep ((", ".toList)) (y :: rest)) h1 with
              h2 | h2 | ⟨q1, q2, hqq, hq1ne, hq2ne, ⟨s3, hs3⟩, -⟩
            · rcases List.eq_nil_or_concat p with rfl | ⟨q, c, hqc⟩
              · exact hp rfl
              · rw [List.concat_eq_append] at hqc
                have hcmem : c ∈ p := by
                  rw [hqc]
                  exact List.mem_append_right q (List.mem_singleton_self c)
                have hcin : c ∈ (", ".toList) := h2.subset hcmem
                have hfig := hA c hcmem
                rcases List.mem_cons.mp hcin with rfl | hcin2
                · exact hlastc q hqc
                · rw [List.mem_singleton] at hcin2
                  subst hcin2
                  rw [hspace] at hfig
                  cases hfig
            · exact ih (fun z hz => hxs z (List.mem_cons_of_mem x hz)) h2
            · have hsp : (' ' : Char) ∈ q1 := by
                rcases hs30 : s3 with _ | ⟨a3, s3'⟩
                · rw [hs30, List.nil_append] at hs3
                  rw [hs3]
                  decide
                · rcases hs31 : s3' with _ | ⟨b3, s3''⟩
                  · rw [hs30, hs31, List.cons_append] at hs3
                    injection hs3 with h3 h4
                    rw [List.nil_append] at h4
                    rw [h4]
                    exact List.mem_singleton_self _
                  · rw [hs30, hs31, List.cons_append, List.cons_append] at hs3
                    injection hs3 with h3 h4
                    injection h4 with h5 h6
                    exact absurd (List.append_eq_nil.mp h6).2 hq1ne
              have hsp2 : (' ' : Char) ∈ p := by
                rw [hqq]
                exact List.mem_append_left _ hsp
              have hf := hA ' ' hsp2
              rw [hspace] at hf
              cases hf
          · rcases hp2 : p2 with _ | ⟨c, p2'⟩
            · exact h2ne hp2
            · rw [hp2, List.cons_append, show ((", ".toList)) ++ joinSep ((", ".toList)) (y :: rest) = ',' :: ' ' :: joinSep ((", ".toList)) (y :: rest) from rfl] at ht2
              injection ht2 with hc hrest
              subst hc
              rcases hp2' : p2' with _ | ⟨d, p2''⟩
              · refine absurd ?_ (hlastc p1)
                rw [hpp, hp2, hp2']
              · rw [hp2', List.cons_append] at hrest
                injection hrest with hd htl2
                subst hd
                have hsp2 : (' ' : Char) ∈ p := by
                  rw [hpp, hp2, hp2']
                  exact List.mem_append_right _ (List.mem_cons_of_mem _ (List.mem_cons_self _ _))
                have hf := hA ' ' hsp2
                rw [hspace] at hf
                cases hf

/-- Every entry of the fuelled digit extraction is a decimal digit. -/
theorem digitsRevAux_lt (fuel : ℕ) (n d : ℕ) (hd : d ∈ digitsRevAux fuel n) :
    d < 10 := by
  induction fuel generalizing n with
  | zero => simp [digitsRevAux] at hd
  | succ fuel ih =>
      cases n with
      | zero => simp [digitsRevAux] at hd
      | succ m =>
          rw [digitsRevAux] at hd
          rcases List.mem_cons.mp hd with rfl | hd
          · exact Nat.mod_lt _ (by norm_num)
          · exact ih _ hd

/-- Every entry of the digit list of a natural number is below 10. -/
theorem digitsRev_lt (n d : ℕ) (hd : d ∈ digitsRev n) : d < 10 :=
  digitsRevAux_lt n n d hd

/-- The digit list of a positive natural number is non-empty. -/
theorem digitsRev_ne_nil (n : ℕ) (hn : n ≠ 0) : digitsRev n ≠ [] := by
  cases n with
  | zero => exact absurd rfl hn
  | succ m => simp [digitsRev, digitsRevAux]

/-- Every character produced by the digit-grouping stream is a comma or a
decimal digit character of the underlying digit list. -/
theorem groupRevAux_chars (ds : List ℕ) (k : ℕ) (c : Char)
    (hc : c ∈ groupRevAux k ds) : c = ',' ∨ ∃ d ∈ ds, c = digitChar d := by
  induction ds generalizing k with
  | nil => simp [groupRevAux] at hc
  | cons d ds ih =>
      unfold groupRevAux at hc
      rw [List.mem_append] at hc
      rcases hc with hc | hc
      · split at hc
        · rcases List.mem_cons.mp hc with rfl | hc
          · exact Or.inl rfl
          · rw [List.mem_singleton] at hc
            exact Or.inr ⟨d, List.mem_cons_self d ds, hc⟩
        · rw [List.mem_singleton] at hc
          exact Or.inr ⟨d, List.mem_cons_self d ds, hc⟩
      · rcases ih (k + 1) hc with h | ⟨d', hd', he⟩
        · exact Or.inl h
        · exact Or.inr ⟨d', List.mem_cons_of_mem d hd', he⟩

/-- The character of a decimal digit below 10 is a figure character. -/
theorem digitChar_figChar (d : ℕ) (hd : d < 10) : figChar (digitChar d) = true := by
  unfold digitChar
  interval_cases d <;> decide

/-- Every character of the grouped figure is a digit or a comma. -/
theorem groupDigits_allFigChar (n : ℕ) : allFigChar (groupDigits n) := by
  intro c hc
  by_cases hn : n = 0
  · subst hn
    rw [show groupDigits 0 = (['0']) from rfl, List.mem_singleton] at hc
    subst hc
    decide
  · unfold groupDigits at hc
    rw [if_neg hn, List.mem_reverse] at hc
    rcases groupRevAux_chars (digitsRev n) 0 c hc with rfl | ⟨d, hd, rfl⟩
    · decide
    · exact digitChar_figChar d (digitsRev_lt n d hd)

/-- The digit-grouping stream of a non-empty digit list starts with the
character of its first (least significant) digit. -/
theorem groupRevAux_zero_cons (d : ℕ) (ds : List ℕ) :
    groupRevAux 0 (d :: ds) = digitChar d :: groupRevAux 1 ds := by
  conv_lhs => rw [groupRevAux]
  rw [if_neg (by simp)]
  rfl

/-- The grouped figure is never empty. -/
theorem groupDigits_ne_nil (n : ℕ) : groupDigits n ≠ [] := by
  by_cases hn : n = 0
  · subst hn
    decide
  · unfold groupDigits
    rw [if_neg hn]
    rcases hd : digitsRev n with _ | ⟨d, ds⟩
    · exact absurd hd (digitsRev_ne_nil n hn)
    · rw [groupRevAux_zero_cons]
      simp

/-- The grouped figure never ends with a comma: its last character is its
least significant digit. -/
theorem groupDigits_not_comma_end (n : ℕ) (q : Str) :
    groupDigits n ≠ q ++ ([',']) := by
  intro h
  by_cases hn : n = 0
  · subst hn
    rw [show groupDigits 0 = (['0']) from rfl] at h
    rcases q with _ | ⟨a, q'⟩
    · rw [List.nil_append] at h
      injection h with h1 h2
      exact absurd h1 (by decide)
    · rw [List.cons_append] at h
      injection h with h1 h2
      exact absurd h2.symm (by simp)
  · unfold groupDigits at h
    rw [if_neg hn] at h
    have h2 : groupRevAux 0 (digitsRev n) = (q ++ ([','])).reverse := by
      rw [← h, List.reverse_reverse]
    rw [List.reverse_append, show (([',']) : Str).reverse = ([',']) from rfl,
      List.singleton_append] at h2
    rcases hd : digitsRev n with _ | ⟨d, ds⟩
    · exact absurd hd (digitsRev_ne_nil n hn)
    · rw [hd, groupRevAux_zero_cons] at h2
      injection h2 with h3 h4
      have hdlt : d < 10 := digitsRev_lt n d (hd ▸ List.mem_cons_self d ds)
      revert h3
      unfold digitChar
      interval_cases d <;> decide

/-- For the finance role, the rendered traveler-fit content of an `OK`
section contains the booking-value figure. -/
theorem travelerFit_finance_contains (hotel : HotelData) (sources : List SourceRecord)
    (sem : Semantic) (input : QueryInput)
    (hrole : input.role = RoleType.finance)
    (hok : (buildTravelerFitSection hotel sources sem input).status = Status.ok) :
    bookingFigure hotel <:+: (buildTravelerFitSection hotel sources sem input).content := by
  by_cases hc : (collectCitations
      (hotel.travelerFit.sourceIdsCommon
        ++ (hotel.travelerFit.sourceIdsByType input.travelerType).getD []
        ++ hotel.feedbackThemes.flatMap (fun t => t.sourceIds)) sources).length = 0
  · exfalso
    have hins : (buildTravelerFitSection hotel sources sem input).status = Status.insufficient := by
      show (if _ = 0 then Status.insufficient else Status.ok) = Status.insufficient
      rw [if_pos hc]
    rw [hok] at hins
    exact absurd hins (by decide)
  · have h1 : bookingFigure hotel <:+: bookingValueLine hotel input := by
      unfold bookingValueLine
      rw [if_pos hrole]
      exact ⟨("Average booking value signal: USD ".toList), (['.']),
        by simp [bookingFigure]⟩
    have hmem : ('-' :: ' ' :: bookingValueLine hotel input)
        ∈ (if (if (collectCitations
            (hotel.travelerFit.sourceIdsCommon
              ++ (hotel.travelerFit.sourceIdsByType input.travelerType).getD []
              ++ hotel.feedbackThemes.flatMap (fun t => t.sourceIds)) sources).length = 0
            then Status.insufficient else Status.ok) = Status.ok then
          ((("Traveler type assessed: ".toList)
              ++ travelerLabels input.travelerType ++ (['.']))
            :: hotel.travelerFit.common
            ++ (hotel.travelerFit.byType input.travelerType).getD []
            ++ [("Booking intelligence: ".toList)
                  ++ joinSep (("; ".toList)) hotel.bookingIntelligence.patterns
                  ++ (['.']),
                bookingValueLine hotel input,
                ("Feedback themes: ".toList)
                  ++ joinSep ((", ".toList)) (hotel.feedbackThemes.map (·.label))
                  ++ (['.'])]
            ++ supportingColorLines sem.used)
        else [insufficientText]).map (fun line => ('-' :: ' ' :: line)) := by
      rw [if_neg hc]
      rw [List.mem_map]
      exact ⟨bookingValueLine hotel input, by simp, rfl⟩
    have h2 := joinSep_contains_mem (['\n']) _ _ hmem
    exact (contains_cons_cons '-' ' ' _ _ h1).trans h2

/-- For any non-finance role, the booking-value figure cannot occur in the
rendered traveler-fit content when it occurs in none of the prose fields
the builder renders: every fixed fragment and separator is shown unable to
hold or bridge an occurrence. -/
theorem travelerFit_nonfinance_nofigure (hotel : HotelData) (sources : List SourceRecord)
    (sem : Semantic) (input : QueryInput)
    (hrole : input.role ≠ RoleType.finance)
    (hcommon : ∀ l ∈ hotel.travelerFit.common, ¬ bookingFigure hotel <:+: l)
    (hspec : ∀ l ∈ (hotel.travelerFit.byType input.travelerType).getD [], ¬ bookingFigure hotel <:+: l)
    (hpat : ∀ l ∈ hotel.bookingIntelligence.patterns, ¬ bookingFigure hotel <:+: l)
    (hqual : ¬ bookingFigure hotel <:+: hotel.bookingIntelligence.qualitativeSummary)
    (hthemes : ∀ t ∈ hotel.feedbackThemes, ¬ bookingFigure hotel <:+: t.label)
    (htitles : ∀ ch ∈ sem.used, ¬ bookingFigure hotel <:+: ch.title) :
    ¬ bookingFigure hotel <:+: (buildTravelerFitSection hotel sources sem input).content := by
  have hp : bookingFigure hotel ≠ [] :=
    groupDigits_ne_nil hotel.bookingIntelligence.avgBookingValueUsd
  have hA : allFigChar (bookingFigure hotel) :=
    groupDigits_allFigChar hotel.bookingIntelligence.avgBookingValueUsd
  have hlastc : ∀ q, bookingFigure hotel ≠ q ++ ([',']) :=
    groupDigits_not_comma_end hotel.bookingIntelligence.avgBookingValueUsd
  show ¬ bookingFigure hotel <:+: renderBulletText _
  unfold renderBulletText
  apply noFig_joinSep_figFree _ _ _ hp hA (figFree_of_all _ (by decide)) (by decide)
  intro bullet hb
  rw [List.mem_map] at hb
  obtain ⟨l, hl, rfl⟩ := hb
  refine noFig_append_left (bookingFigure hotel) (['-', ' ']) l hp hA (figFree_of_all _ (by decide)) ?_
  split at hl
  · rw [if_neg (by decide : ¬ (Status.insufficient = Status.ok))] at hl
    rw [List.mem_singleton] at hl
    subst hl
    exact noFig_of_figFree _ _ hp hA (figFree_of_all _ (by decide))
  · rw [if_pos rfl] at hl
    simp only [List.mem_cons, List.mem_append, List.mem_singleton,
      List.not_mem_nil, or_false, or_assoc] at hl
    rcases hl with rfl | hl | hl | rfl | rfl | rfl | hl
    · cases input.travelerType <;> exact noFig_of_figFree _ _ hp hA (figFree_of_all _ (by decide))
    · exact hcommon l hl
    · exact hspec l hl
    · rw [List.append_assoc]
      exact noFig_append_left _ _ _ hp hA (figFree_of_all _ (by decide))
        (noFig_append_right _ _ _ hp hA
          (noFig_joinSep_figFree _ _ _ hp hA (figFree_of_all _ (by decide)) (by decide) hpat)
          (figFree_of_all _ (by decide)))
    · unfold bookingValueLine
      rw [if_neg hrole, List.append_assoc]
      exact noFig_append_left _ _ _ hp hA (figFree_of_all _ (by decide))
        (noFig_append_right _ _ _ hp hA hqual (figFree_of_all _ (by decide)))
    · rw [List.append_assoc]
      refine noFig_append_left _ _ _ hp hA (figFree_of_all _ (by decide))
        (noFig_append_right _ _ _ hp hA ?_ (figFree_of_all _ (by decide)))
      apply noFig_joinSep_commaSpace _ _ hp hA hlastc
      intro x hx
      rw [List.mem_map] at hx
      obtain ⟨t, ht, rfl⟩ := hx
      exact hthemes t ht
    · unfold supportingColorLines at hl
      split at hl
      · rw [List.mem_singleton] at hl
        subst hl
        unfold supportingColorLine
        rw [List.append_assoc]
        refine noFig_append_left _ _ _ hp hA (figFree_of_all _ (by decide))
          (noFig_append_right _ _ _ hp hA ?_ (figFree_of_all _ (by decide)))
        apply noFig_joinSep_commaSpace _ _ hp hA hlastc
        intro x hx
        rw [List.mem_map] at hx
        obtain ⟨ch, hch, rfl⟩ := hx
        exact htitles ch hch
      · simp at hl

/-- Stable insertion only rearranges, it never invents elements. -/
theorem insertLE_mem {α : Type} (le : α → α → Bool) (a x : α) (l : List α)
    (h : x ∈ insertLE le a l) : x = a ∨ x ∈ l := by
  induction l with
  | nil =>
      rw [insertLE, List.mem_singleton] at h
      exact Or.inl h
  | cons y ys ih =>
      unfold insertLE at h
      split at h
      · rcases List.mem_cons.mp h with rfl | h
        · exact Or.inl rfl
        · exact Or.inr h
      · rcases List.mem_cons.mp h with rfl | h
        · exact Or.inr (List.mem_cons_self _ _)
        · rcases ih h with rfl | h
          · exact Or.inl rfl
          · exact Or.inr (List.mem_cons_of_mem _ h)

/-- Stable sorting only rearranges, it never invents elements. -/
theorem stableSortLE_mem {α : Type} (le : α → α → Bool) (x : α) (l : List α)
    (h : x ∈ stableSortLE le l) : x ∈ l := by
  induction l with
  | nil =>
      rw [stableSortLE] at h
      cases h
  | cons y ys ih =>
      unfold stableSortLE at h
      rcases insertLE_mem le y x _ h with rfl | h
      · exact List.mem_cons_self _ _
      · exact List.mem_cons_of_mem _ (ih h)

/-- The retrieval walk only keeps chunks from its candidate list. -/
theorem walk_used_subset (hotel : HotelData) (sk : SectionKey)
    (l : List UnstructuredChunk) (n : ℕ) (c : UnstructuredChunk)
    (hc : c ∈ (retrieveWalk hotel sk l n).1) : c ∈ l := by
  induction l generalizing n with
  | nil => simp [retrieveWalk] at hc
  | cons hd tl ih =>
      rw [retrieveWalk] at hc
      rcases hdet : detectSemanticConflict hd sk hotel with _ | e
      · rw [hdet] at hc
        simp only at hc
        by_cases hn : n ≤ 1
        · rw [if_pos hn] at hc
          rw [List.mem_singleton] at hc
          subst hc
          exact List.mem_cons_self _ _
        · rw [if_neg hn] at hc
          rcases List.mem_cons.mp hc with rfl | hc
          · exact List.mem_cons_self _ _
          · exact List.mem_cons_of_mem _ (ih _ hc)
      · rw [hdet] at hc
        simp only at hc
        exact List.mem_cons_of_mem _ (ih _ hc)

/-- The retriever's used chunks all come from the chunk pool. -/
theorem retrieve_used_subset (allChunks : List UnstructuredChunk) (hotel : HotelData)
    (sk : SectionKey) (terms : List Str) (topN : ℕ) (c : UnstructuredChunk)
    (hc : c ∈ (retrieveSemanticChunks allChunks hotel sk terms topN).used) :
    c ∈ allChunks := by
  have h1 := walk_used_subset hotel sk _ topN c hc
  rw [List.mem_map] at h1
  obtain ⟨sc, hsc, rfl⟩ := h1
  have h2 := stableSortLE_mem scoredLE sc _ hsc
  rw [List.mem_filter] at h2
  have h3 := h2.1
  rw [List.mem_map] at h3
  obtain ⟨c', hc', he⟩ := h3
  rw [List.mem_filter] at hc'
  rw [← he]
  exact hc'.1

/-- Two-decimal rounding is monotone. -/
theorem round2_mono (x y : ℚ) (h : x ≤ y) : round2 x ≤ round2 y := by
  unfold round2
  have hr : round (x * 100) ≤ round (y * 100) := by
    rw [round_eq, round_eq]
    exact Int.floor_mono (by linarith)
  have : ((round (x * 100) : ℤ) : ℚ) ≤ ((round (y * 100) : ℤ) : ℚ) := by
    exact_mod_cast hr
  linarith

/-- A clamp into the unit interval lands in the unit interval. -/
theorem clamp_unit_bounds (x : ℚ) : 0 ≤ clamp x 0 1 ∧ clamp x 0 1 ≤ 1 := by
  unfold clamp
  constructor
  · exact le_min (by norm_num) (le_max_left 0 x)
  · exact min_le_left 1 _

/-- Two-decimal rounding fixes zero. -/
theorem round2_zero : round2 0 = 0 := by
  unfold round2
  norm_num

/-- Two-decimal rounding fixes one. -/
theorem round2_one : round2 1 = 1 := by
  unfold round2
  norm_num [round_eq]

/-- The pre-rounding evidence score is monotone in the citation count when
the average reliability is non-negative. -/
theorem evidenceScore_mono (n m : ℕ) (r : ℚ) (rec : Bool) (k : ℕ)
    (hr : 0 ≤ r) (hnm : n ≤ m) :
    evidenceScore n r rec k ≤ evidenceScore m r rec k := by
  unfold evidenceScore clamp
  have hbase : min 1 ((n : ℚ) / 8) ≤ min 1 ((m : ℚ) / 8) := by
    apply min_le_min le_rfl
    have : (n : ℚ) ≤ (m : ℚ) := by exact_mod_cast hnm
    linarith
  have hfac : 0 ≤ r * (9 / 10) := by positivity
  have hprod : min 1 ((n : ℚ) / 8) * (r * (9 / 10))
      ≤ min 1 ((m : ℚ) / 8) * (r * (9 / 10)) :=
    mul_le_mul_of_nonneg_right hbase hfac
  apply min_le_min le_rfl
  apply max_le_max le_rfl
  linarith

/-- The rounded evidence score always lies in the unit interval. -/
theorem evidenceScoreRounded_bounds (n : ℕ) (r : ℚ) (rec : Bool) (k : ℕ) :
    0 ≤ round2 (evidenceScore n r rec k) ∧ round2 (evidenceScore n r rec k) ≤ 1 := by
  have hb : 0 ≤ evidenceScore n r rec k ∧ evidenceScore n r rec k ≤ 1 := by
    unfold evidenceScore
    exact clamp_unit_bounds _
  constructor
  · have := round2_mono 0 _ hb.1
    rw [round2_zero] at this
    exact this
  · have := round2_mono _ 1 hb.2
    rw [round2_one] at this
    exact this

/-- The boolean-or-fallback helper returns the fallback on any value that is
not a JSON boolean. -/
theorem boolOr_default (v : Option JVal) (fb : Bool)
    (h : ∀ b, v ≠ some (JVal.jbool b)) : boolOr v fb = fb := by
  cases v with
  | none => rfl
  | some j =>
      cases j with
      | jbool b => exact absurd rfl (h b)
      | jstr s => rfl
      | jnum q => rfl
      | jnull => rfl
      | jother => rfl

/-- An insufficient positioning section renders only the fixed sentence. -/
theorem positioning_insufficient_content (hotel : HotelData)
    (sources : List SourceRecord) (sem : Semantic) (input : QueryInput)
    (h : (buildPositioningSection hotel sources sem input).status = Status.insufficient) :
    (buildPositioningSection hotel sources sem input).content
      = renderBulletText [insufficientText] := by
  by_cases hc : (collectCitations hotel.positioning.sourceIds sources).length = 0
  · show renderBulletText (if (if (collectCitations hotel.positioning.sourceIds sources).length = 0 then Status.insufficient else Status.ok) = Status.ok then _ else [insufficientText]) = _
    rw [if_pos hc]
    simp
  · exfalso
    have hok : (buildPositioningSection hotel sources sem input).status = Status.ok := by
      show (if (collectCitations hotel.positioning.sourceIds sources).length = 0 then Status.insufficient else Status.ok) = Status.ok
      rw [if_neg hc]
    rw [h] at hok
    exact absurd hok (by decide)

/-- An insufficient traveler-fit section renders only the fixed sentence. -/
theorem travelerFit_insufficient_content (hotel : HotelData)
    (sources : List SourceRecord) (sem : Semantic) (input : QueryInput)
    (h : (buildTravelerFitSection hotel sources sem input).status = Status.insufficient) :
    (buildTravelerFitSection hotel sources sem input).content
      = renderBulletText [insufficientText] := by
  by_cases hc : (collectCitations
      (hotel.travelerFit.sourceIdsCommon
        ++ (hotel.travelerFit.sourceIdsByType input.travelerType).getD []
        ++ hotel.feedbackThemes.flatMap (fun t => t.sourceIds)) sources).length = 0
  · show renderBulletText (if (if _ = 0 then Status.insufficient else Status.ok) = Status.ok then _ else [insufficientText]) = _
    rw [if_pos hc]
    simp
  · exfalso
    have hok : (buildTravelerFitSection hotel sources sem input).status = Status.ok := by
      show (if _ = 0 then Status.insufficient else Status.ok) = Status.ok
      rw [if_neg hc]
    rw [h] at hok
    exact absurd hok (by decide)

/-- An insufficient risks section renders only the fixed sentence. -/
theorem risks_insufficient_content (hotel : HotelData)
    (sources : List SourceRecord) (sem : Semantic) (input : QueryInput)
    (h : (buildRisksSection hotel sources sem input).status = Status.insufficient) :
    (buildRisksSection hotel sources sem input).content
      = renderBulletText [insufficientText] := by
  by_cases hc : (collectCitations
      ((hotel.risks.filter (fun r => input.season ∈ r.seasonRelevance)).flatMap
        (fun r => r.sourceIds)) sources).length = 0
  · show renderBulletText (if (if _ = 0 then Status.insufficient else Status.ok) = Status.ok then _ else [insufficientText]) = _
    rw [if_pos hc]
    simp
  · exfalso
    have hok : (buildRisksSection hotel sources sem input).status = Status.ok := by
      show (if _ = 0 then Status.insufficient else Status.ok) = Status.ok
      rw [if_neg hc]
    rw [h] at hok
    exact absurd hok (by decide)

/-- An insufficient UJV point-of-view section renders only the fixed
sentence. -/
theorem ujvPov_insufficient_content (hotel : HotelData)
    (sources : List SourceRecord) (sem : Semantic)
    (h : (buildUjvPovSection hotel sources sem).status = Status.insufficient) :
    (buildUjvPovSection hotel sources sem).content
      = renderBulletText [insufficientText] := by
  by_cases hc : (collectCitations hotel.ujvPov.sourceIds sources).length = 0
  · show renderBulletText (if (if _ = 0 then Status.insufficient else Status.ok) = Status.ok then _ else [insufficientText]) = _
    rw [if_pos hc]
    simp
  · exfalso
    have hok : (buildUjvPovSection hotel sources sem).status = Status.ok := by
      show (if _ = 0 then Status.insufficient else Status.ok) = Status.ok
      rw [if_neg hc]
    rw [h] at hok
    exact absurd hok (by decide)

/-- An insufficient promotions section carries empty promo and
stacking-rule arrays. -/
theorem promotions_insufficient_content (hotel : HotelData)
    (sources : List SourceRecord) (promoConflicts : List ConflictEvent)
    (h : (buildPromotionsSection hotel sources promoConflicts).status = Status.insufficient) :
    (buildPromotionsSection hotel sources promoConflicts).content.promos = []
      ∧ (buildPromotionsSection hotel sources promoConflicts).content.stackingRules = [] := by
  by_cases hc : (collectCitations
      (hotel.promotions.flatMap (fun p => p.sourceIds)
        ++ hotel.contract.sourceIds
        ++ hotel.contract.stackingRules.flatMap (fun r => r.sourceIds)) sources).length = 0
  · constructor
    · show (if (if _ = 0 then Status.insufficient else Status.ok) = Status.ok then _ else []) = ([] : List PromoItem)
      rw [if_pos hc]
      simp
    · show (if (if _ = 0 then Status.insufficient else Status.ok) = Status.ok then _ else []) = ([] : List StackingRuleItem)
      rw [if_pos hc]
      simp
  · exfalso
    have hok : (buildPromotionsSection hotel sources promoConflicts).status = Status.ok := by
      show (if _ = 0 then Status.insufficient else Status.ok) = Status.ok
      rw [if_neg hc]
    rw [h] at hok
    exact absurd hok (by decide)

set_option maxRecDepth 400000

/- ### Claim theorems -/

/-- C1: for every produced section of every response, the section's status
is `OK` if and only if its citation list is non-empty, and
`INSUFFICIENT_SOURCES` exactly when the citation list is empty. -/
theorem response_section_status_matches_citations (input : QueryInput)
    (hotel : HotelData) (allSources : List SourceRecord)
    (allChunks : List UnstructuredChunk) (ov : Overrides) (key : Bool)
    (tCreate tAge : ℤ) (v : SectionView)
    (hv : v ∈ sectionViews (runQueryCore input hotel allSources allChunks ov key tCreate tAge).sections) :
    v.status = Status.ok ↔ v.citations ≠ [] := by
  have hts : ∀ (b : TextSection) (o : Option Str),
      b.status = (if b.citations.length = 0 then Status.insufficient else Status.ok) →
      ((applyOverride b o).view.status = Status.ok
        ↔ (applyOverride b o).view.citations ≠ []) := by
    intro b o hb
    show (applyOverride b o).status = Status.ok ↔ (applyOverride b o).citations ≠ []
    rw [applyOverride_status, applyOverride_citations]
    exact builder_view_ok_iff b hb
  have htp : ∀ (b : PromotionsSection),
      b.status = (if b.citations.length = 0 then Status.insufficient else Status.ok) →
      (b.view.status = Status.ok ↔ b.view.citations ≠ []) := by
    intro b hb
    show b.status = Status.ok ↔ b.citations ≠ []
    rw [hb]; exact status_ok_iff b.citations
  rcases hir : input.includeRisks <;> rcases hip : input.includePromotions <;>
    rcases hiu : input.includeUjvPov <;>
    simp only [runQueryCore, sectionViews, sectionEntries, hir, hip, hiu,
      Bool.false_eq_true, if_true, if_false, if_pos, if_neg, Option.map_some',
      Option.map_none', Option.toList_some, Option.toList_none, List.map_append,
      List.map_cons, List.map_nil, List.append_nil, List.mem_append, List.mem_cons,
      List.not_mem_nil, or_false, List.mem_singleton, not_false_iff, or_assoc] at hv <;>
    rcases hv with rfl | rfl | rfl | rfl | rfl <;>
    (first
      | exact hts _ _ rfl
      | exact htp _ rfl)

/-- C1 witness: the positioning section of a concrete response satisfies the
status-citation equivalence. -/
theorem response_section_status_matches_citations_witness :
    (runQueryCore reqEight hotelEight sourcesEight [] Overrides.empty false 0 tAgeSample).sections.positioning.view.status = Status.ok
      ↔ (runQueryCore reqEight hotelEight sourcesEight [] Overrides.empty false 0 tAgeSample).sections.positioning.view.citations ≠ [] :=
  response_section_status_matches_citations reqEight hotelEight sourcesEight []
    Overrides.empty false 0 tAgeSample _ (by with_unfolding_all decide)

/-- C2 counterexample: `chunkStack` trips the stacking-claim rule for the
positioning section, yet the positioning section built for a run over a pool
containing it has an empty `conflictsIgnored` log, because the chunk's
keyword score against the positioning terms is zero and it never enters the
ranked candidate list. -/
theorem conflicting_chunk_missing_from_section_log :
    chunkStack ∈ [chunkStack]
      ∧ (detectSemanticConflict chunkStack SectionKey.positioning hotelStack).isSome = true
      ∧ (runQueryCore reqBase hotelStack [] [chunkStack] Overrides.empty false 0 tAgeSample).sections.positioning.conflictsIgnored = []
      ∧ chunkStack ∉ (runQueryCore reqBase hotelStack [] [chunkStack] Overrides.empty false 0 tAgeSample).sections.positioning.semanticChunksUsed := by
  with_unfolding_all decide

/-- C2 (amended): a chunk that trips the stacking-claim or
positioning-conflict rule never appears in any retrieval's used list (hence
in no section's `semanticChunksUsed`), and for promotions every such chunk
of the queried hotel appears in the promotions-wide `conflictsIgnored`; a
per-section log records only tripping chunks that reached the ranked
candidate walk. -/
theorem conflicting_chunks_excluded_and_promotions_logged :
    (∀ (allChunks : List UnstructuredChunk) (hotel : HotelData) (sk : SectionKey)
        (terms : List Str) (topN : ℕ) (c : UnstructuredChunk) (e : ConflictEvent),
        detectSemanticConflict c sk hotel = some e →
        c ∉ (retrieveSemanticChunks allChunks hotel sk terms topN).used)
    ∧ (∀ (allChunks : List UnstructuredChunk) (hotel : HotelData)
        (c : UnstructuredChunk) (e : ConflictEvent), c ∈ allChunks →
        c.hotelId = hotel.hotelId →
        detectSemanticConflict c SectionKey.promotions hotel = some e →
        e ∈ collectPromoSemanticConflicts allChunks hotel) :=
  ⟨fun allChunks hotel sk terms topN c e hdet =>
      retrieve_used_clean allChunks hotel sk terms topN c e hdet,
   fun allChunks hotel c e hc hh hdet =>
      promo_conflicts_complete allChunks hotel c e hc hh hdet⟩

/-- C2 witness: the stacking chunk is excluded from a concrete retrieval and
its conflict event appears in the concrete promotions-wide log. -/
theorem conflicting_chunks_excluded_witness :
    chunkStack ∉ (retrieveSemanticChunks [chunkStack] hotelStack SectionKey.positioning [] 3).used
      ∧ eventStack ∈ collectPromoSemanticConflicts [chunkStack] hotelStack :=
  ⟨conflicting_chunks_excluded_and_promotions_logged.1 [chunkStack] hotelStack
      SectionKey.positioning [] 3 chunkStack eventStack (by with_unfolding_all decide),
   conflicting_chunks_excluded_and_promotions_logged.2 [chunkStack] hotelStack
      chunkStack eventStack (by with_unfolding_all decide)
      (by with_unfolding_all decide) (by with_unfolding_all decide)⟩

/-- C3 counterexample: a source cited by two sections is counted once per
section by the engine.  On a concrete run the published score is 0.18,
while the claim's unique-citation formula yields 0.09. -/
theorem evidence_score_counts_duplicate_citations :
    (runQueryCore reqBase hotelShared sourcesShared [] Overrides.empty false 0 tAgeSample).trust.evidenceStrengthScore = 9 / 50
      ∧ specUniqueEvidenceScore
          (runQueryCore reqBase hotelShared sourcesShared [] Overrides.empty false 0 tAgeSample) tAgeSample = 9 / 100
      ∧ ¬ ((9 : ℚ) / 50 = 9 / 100) := by
  with_unfolding_all decide

/-- C3 (amended): the published evidence-strength score equals
`round2 (clamp (min 1 (totalCitations/8) * (avgReliability * 0.9) + recency
bonus + capped semantic bonus) 0 1)`, where `totalCitations` is the total
number of citations across all produced sections' lists (each section's
list is de-duplicated by source id, but a source cited by several sections
counts once per section) and `avgReliability` averages over that same
multiset (0 if empty). -/
theorem evidence_score_equals_total_citation_formula (input : QueryInput)
    (hotel : HotelData) (allSources : List SourceRecord)
    (allChunks : List UnstructuredChunk) (ov : Overrides) (key : Bool)
    (tCreate tAge : ℤ) :
    (runQueryCore input hotel allSources allChunks ov key tCreate tAge).trust.evidenceStrengthScore
      = round2 (clamp
          (min 1 ((totalCitationsOf (runQueryCore input hotel allSources allChunks ov key tCreate tAge) : ℚ) / 8)
              * (avgReliabilityOf (runQueryCore input hotel allSources allChunks ov key tCreate tAge) * (9 / 10))
            + (if anyRecentOf (runQueryCore input hotel allSources allChunks ov key tCreate tAge) tAge then 5 / 100 else 0)
            + min (2 / 100)
                ((semanticCountOf (runQueryCore input hotel allSources allChunks ov key tCreate tAge) : ℚ) * (1 / 100))) 0 1) :=
  rfl

/-- C4: every text section with status `INSUFFICIENT_SOURCES` renders only
the fixed insufficiency sentence (as the sole bullet line), so no canonical
fact strings, semantic-chunk content, or citation-dependent text can appear;
an insufficient promotions section carries empty `promos` and
`stackingRules` arrays. -/
theorem insufficient_sections_render_only_fixed_sentence :
    (∀ (hotel : HotelData) (sources : List SourceRecord) (sem : Semantic)
        (input : QueryInput),
        (buildPositioningSection hotel sources sem input).status = Status.insufficient →
        (buildPositioningSection hotel sources sem input).content
          = renderBulletText [insufficientText])
    ∧ (∀ (hotel : HotelData) (sources : List SourceRecord) (sem : Semantic)
        (input : QueryInput),
        (buildTravelerFitSection hotel sources sem input).status = Status.insufficient →
        (buildTravelerFitSection hotel sources sem input).content
          = renderBulletText [insufficientText])
    ∧ (∀ (hotel : HotelData) (sources : List SourceRecord) (sem : Semantic)
        (input : QueryInput),
        (buildRisksSection hotel sources sem input).status = Status.insufficient →
        (buildRisksSection hotel sources sem input).content
          = renderBulletText [insufficientText])
    ∧ (∀ (hotel : HotelData) (sources : List SourceRecord) (sem : Semantic),
        (buildUjvPovSection hotel sources sem).status = Status.insufficient →
        (buildUjvPovSection hotel sources sem).content
          = renderBulletText [insufficientText])
    ∧ (∀ (hotel : HotelData) (sources : List SourceRecord)
        (promoConflicts : List ConflictEvent),
        (buildPromotionsSection hotel sources promoConflicts).status = Status.insufficient →
        (buildPromotionsSection hotel sources promoConflicts).content.promos = []
          ∧ (buildPromotionsSection hotel sources promoConflicts).content.stackingRules = []) :=
  ⟨positioning_insufficient_content, travelerFit_insufficient_content,
   risks_insufficient_content, ujvPov_insufficient_content,
   promotions_insufficient_content⟩

/-- C4 witness: with no resolvable sources, each concrete builder goes
insufficient and renders only the fixed sentence (empty arrays for
promotions). -/
theorem insufficient_sections_render_only_fixed_sentence_witness :
    (buildPositioningSection hotelEmpty [] ⟨[], []⟩ reqBase).content
        = renderBulletText [insufficientText]
      ∧ (buildTravelerFitSection hotelEmpty [] ⟨[], []⟩ reqBase).content
        = renderBulletText [insufficientText]
      ∧ (buildRisksSection hotelEmpty [] ⟨[], []⟩ reqBase).content
        = renderBulletText [insufficientText]
      ∧ (buildUjvPovSection hotelEmpty [] ⟨[], []⟩).content
        = renderBulletText [insufficientText]
      ∧ (buildPromotionsSection hotelEmpty [] []).content.promos = []
      ∧ (buildPromotionsSection hotelEmpty [] []).content.stackingRules = [] := by
  refine ⟨?_, ?_, ?_, ?_, ?_, ?_⟩
  · exact insufficient_sections_render_only_fixed_sentence.1 hotelEmpty [] ⟨[], []⟩
      reqBase (by with_unfolding_all decide)
  · exact insufficient_sections_render_only_fixed_sentence.2.1 hotelEmpty [] ⟨[], []⟩
      reqBase (by with_unfolding_all decide)
  · exact insufficient_sections_render_only_fixed_sentence.2.2.1 hotelEmpty [] ⟨[], []⟩
      reqBase (by with_unfolding_all decide)
  · exact insufficient_sections_render_only_fixed_sentence.2.2.2.1 hotelEmpty [] ⟨[], []⟩
      (by with_unfolding_all decide)
  · exact (insufficient_sections_render_only_fixed_sentence.2.2.2.2 hotelEmpty [] []
      (by with_unfolding_all decide)).1
  · exact (insufficient_sections_render_only_fixed_sentence.2.2.2.2 hotelEmpty [] []
      (by with_unfolding_all decide)).2

/-- C5 counterexample: the claim ranges over every valid request, but in
narrative-assisted mode (`useLLM` true with a configured credential) the
override gate replaces the traveler-fit content with the external service's
text, which can quote the booking-value figure for a non-finance role — the
substring heuristic the spec's design note flags.  Concretely, a
reservations-role run whose override quotes the figure yields traveler-fit
content containing it. -/
theorem narrative_override_reintroduces_figure :
    reqLLM.role ≠ RoleType.finance
      ∧ bookingFigure hotelShared
          <:+: (runQueryCore reqLLM hotelShared sourcesShared [] overrideWithFigure true 0 tAgeSample).sections.travelerFit.content := by
  with_unfolding_all decide

/-- C5 (amended): in deterministic mode (`useLLM` false or no credential
configured), the traveler-fit builder is the sole role-based redaction
point: with the finance role and an `OK` traveler-fit section the rendered
content contains the literal booking-value figure; with any other role the
content cannot contain the figure, provided the figure occurs in none of
the dataset's rendered prose fields (hypothesis `FigureFreeProse`, modelled
from the spec's documented sample dataset, which is not part of the engine
sources).  The narrative-override path can bypass this substring property,
as the counterexample shows and the spec's design note acknowledges. -/
theorem travelerFit_booking_value_redacted_by_role (input : QueryInput)
    (hotel : HotelData) (allSources : List SourceRecord)
    (allChunks : List UnstructuredChunk) (ov : Overrides) (key : Bool)
    (tCreate tAge : ℤ)
    (hdet : (input.useLLM && key) = false)
    (hprose : FigureFreeProse hotel input allChunks) :
    (input.role = RoleType.finance →
        (runQueryCore input hotel allSources allChunks ov key tCreate tAge).sections.travelerFit.status = Status.ok →
        bookingFigure hotel
          <:+: (runQueryCore input hotel allSources allChunks ov key tCreate tAge).sections.travelerFit.content)
    ∧ (input.role ≠ RoleType.finance →
        ¬ bookingFigure hotel
          <:+: (runQueryCore input hotel allSources allChunks ov key tCreate tAge).sections.travelerFit.content) := by
  have heq : (runQueryCore input hotel allSources allChunks ov key tCreate tAge).sections.travelerFit
      = buildTravelerFitSection hotel allSources
          (retrieveSemanticChunks allChunks hotel SectionKey.travelerFit
            ((buildQueryPlan hotel input key tCreate).perSection.travelerFit.getD []) 3) input := by
    show applyOverride
        (buildTravelerFitSection hotel allSources
          (retrieveSemanticChunks allChunks hotel SectionKey.travelerFit
            ((buildQueryPlan hotel input key tCreate).perSection.travelerFit.getD []) 3) input)
        (if (input.useLLM && key) = true then ov else Overrides.empty).travelerFit
      = _
    rw [hdet]
    rfl
  rw [heq]
  obtain ⟨hcommon, hspec, hpat, hqual, hthemes, htitles⟩ := hprose
  constructor
  · intro hrole hok
    exact travelerFit_finance_contains hotel allSources _ input hrole hok
  · intro hrole
    apply travelerFit_nonfinance_nofigure hotel allSources _ input hrole hcommon hspec
      hpat hqual hthemes
    intro ch hch
    exact htitles ch (retrieve_used_subset _ _ _ _ _ ch hch)

/-- C5 witness: on a concrete figure-free dataset, the deterministic
finance run's traveler-fit content contains the figure and the
reservations run's content does not. -/
theorem travelerFit_booking_value_redacted_witness :
    (bookingFigure hotelShared
        <:+: (runQueryCore reqFinance hotelShared sourcesShared [] Overrides.empty false 0 tAgeSample).sections.travelerFit.content)
      ∧ ¬ (bookingFigure hotelShared
        <:+: (runQueryCore reqBase hotelShared sourcesShared [] Overrides.empty false 0 tAgeSample).sections.travelerFit.content) := by
  constructor
  · exact (travelerFit_booking_value_redacted_by_role reqFinance hotelShared
      sourcesShared [] Overrides.empty false 0 tAgeSample rfl
      (by refine ⟨?_, ?_, ?_, ?_, ?_, ?_⟩ <;> with_unfolding_all decide)).1 rfl
      (by with_unfolding_all decide)
  · exact (travelerFit_booking_value_redacted_by_role reqBase hotelShared
      sourcesShared [] Overrides.empty false 0 tAgeSample rfl
      (by refine ⟨?_, ?_, ?_, ?_, ?_, ?_⟩ <;> with_unfolding_all decide)).2 (by decide)

/-- C6 counterexample: on a concrete run the engine escalates although none
of the claim's four conditions holds of the published response: the
published (rounded) score is exactly 0.60, promotions were requested and
cite two sources, traveler fit is `OK`, and freshness is `PASS`.  The
engine compares the pre-rounding score 0.596 against the threshold. -/
theorem escalation_fires_below_threshold_despite_rounded_score :
    (runQueryCore reqEight hotelEight sourcesEight [] Overrides.empty false 0 tAgeSample).trust.escalationNeeded = true
      ∧ ¬ ((runQueryCore reqEight hotelEight sourcesEight [] Overrides.empty false 0 tAgeSample).trust.evidenceStrengthScore < 3 / 5)
      ∧ ¬ (reqEight.includePromotions = true
            ∧ (((runQueryCore reqEight hotelEight sourcesEight [] Overrides.empty false 0 tAgeSample).sections.promotions.map
                  (fun p => p.citations.length)).getD 0) = 0)
      ∧ (runQueryCore reqEight hotelEight sourcesEight [] Overrides.empty false 0 tAgeSample).sections.travelerFit.status ≠ Status.insufficient
      ∧ (runQueryCore reqEight hotelEight sourcesEight [] Overrides.empty false 0 tAgeSample).trust.guardrails.withinFreshnessPolicy ≠ Compliance.warn := by
  with_unfolding_all decide

/-- C6 (amended): escalation is flagged if and only if at least one of the
four conditions holds with the score read before two-decimal rounding, and
the single reported reason is the first condition to hold in the order:
low score, promotions without citations, insufficient traveler fit,
freshness warning. -/
theorem escalation_triggers_and_priority_order (input : QueryInput)
    (hotel : HotelData) (allSources : List SourceRecord)
    (allChunks : List UnstructuredChunk) (ov : Overrides) (key : Bool)
    (tCreate tAge : ℤ) :
    ((runQueryCore input hotel allSources allChunks ov key tCreate tAge).trust.escalationNeeded
      = (decide (preScoreOf (runQueryCore input hotel allSources allChunks ov key tCreate tAge) tAge < 3 / 5)
          || (input.includePromotions
              && decide ((((runQueryCore input hotel allSources allChunks ov key tCreate tAge).sections.promotions.map
                    (fun p => p.citations.length)).getD 0) = 0))
          || decide ((runQueryCore input hotel allSources allChunks ov key tCreate tAge).sections.travelerFit.status = Status.insufficient)
          || decide ((runQueryCore input hotel allSources allChunks ov key tCreate tAge).trust.guardrails.withinFreshnessPolicy = Compliance.warn)))
    ∧ ((runQueryCore input hotel allSources allChunks ov key tCreate tAge).trust.escalationReason
      = (if preScoreOf (runQueryCore input hotel allSources allChunks ov key tCreate tAge) tAge < 3 / 5 then
            reasonLowScore (preScoreOf (runQueryCore input hotel allSources allChunks ov key tCreate tAge) tAge)
          else if input.includePromotions
              && decide ((((runQueryCore input hotel allSources allChunks ov key tCreate tAge).sections.promotions.map
                    (fun p => p.citations.length)).getD 0) = 0) then reasonPromoMissing
          else if (runQueryCore input hotel allSources allChunks ov key tCreate tAge).sections.travelerFit.status = Status.insufficient then
            reasonTravelerFit
          else if (runQueryCore input hotel allSources allChunks ov key tCreate tAge).trust.guardrails.withinFreshnessPolicy = Compliance.warn then
            reasonPolicyWarn
          else [])) :=
  ⟨rfl, rfl⟩

/-- C7: holding average reliability (non-negative), the recency flag and
the semantic-chunk count fixed, the published evidence-strength score is
monotone non-decreasing in the total citation count, and it always lies in
the unit interval. -/
theorem evidence_score_monotone_and_unit_bounded (n m : ℕ) (r : ℚ)
    (rec : Bool) (k : ℕ) (hr : 0 ≤ r) (hnm : n ≤ m) :
    round2 (evidenceScore n r rec k) ≤ round2 (evidenceScore m r rec k)
      ∧ (0 ≤ round2 (evidenceScore n r rec k)
        ∧ round2 (evidenceScore n r rec k) ≤ 1) :=
  ⟨round2_mono _ _ (evidenceScore_mono n m r rec k hr hnm),
   evidenceScoreRounded_bounds n r rec k⟩

/-- C7 witness: the monotonicity and bounds at a concrete instance. -/
theorem evidence_score_monotone_witness :
    round2 (evidenceScore 1 (1 / 2) true 0) ≤ round2 (evidenceScore 2 (1 / 2) true 0)
      ∧ (0 ≤ round2 (evidenceScore 1 (1 / 2) true 0)
        ∧ round2 (evidenceScore 1 (1 / 2) true 0) ≤ 1) :=
  evidence_score_monotone_and_unit_bounded 1 2 (1 / 2) true 0 (by norm_num) (by decide)

/-- C8: validation accepts a raw payload exactly when it is an object with
a non-empty string `hotelId` and enumeration members for `travelerType`,
`season` and `role` (rejection happens in the validator, before any data is
consulted); on acceptance each `include*` flag defaults to true and
`useLLM` to false whenever the corresponding field is absent or not a
boolean. -/
theorem validateInput_acceptance_and_boolean_defaults (r : RawReq) :
    ((∃ q, validateInput r = .ok q) ↔ ValidRaw r)
    ∧ (∀ f q, r = RawReq.obj f → validateInput r = .ok q →
        ((∀ b, f.includeRisks ≠ some (JVal.jbool b)) → q.includeRisks = true)
        ∧ ((∀ b, f.includePromotions ≠ some (JVal.jbool b)) → q.includePromotions = true)
        ∧ ((∀ b, f.includeUjvPov ≠ some (JVal.jbool b)) → q.includeUjvPov = true)
        ∧ ((∀ b, f.useLLM ≠ some (JVal.jbool b)) → q.useLLM = false)) := by
  cases r with
  | notObj =>
      refine ⟨⟨?_, ?_⟩, ?_⟩
      · rintro ⟨q, hq⟩
        simp [validateInput] at hq
      · rintro ⟨f, hf, -⟩
        exact RawReq.noConfusion hf
      · intro f q hrf
        exact RawReq.noConfusion hrf
  | obj f =>
      have hobj : ∀ f' : RawFields, RawReq.obj f = RawReq.obj f' → f = f' := by
        intro f' he
        injection he
      rcases hh : reqString f.hotelId with _ | h
      · refine ⟨⟨?_, ?_⟩, ?_⟩
        · rintro ⟨q, hq⟩
          simp only [validateInput, hh] at hq
          exact Except.noConfusion hq
        · rintro ⟨f', hf', ⟨h, hh', -⟩, -⟩
          have := hobj f' hf'
          subst this
          rw [hh] at hh'
          cases hh'
        · intro f' q hrf hq
          have := hobj f' hrf
          subst this
          simp only [validateInput, hh] at hq
          exact Except.noConfusion hq
      · by_cases hne : h = []
        · refine ⟨⟨?_, ?_⟩, ?_⟩
          · rintro ⟨q, hq⟩
            simp only [validateInput, hh, if_pos hne] at hq
            exact Except.noConfusion hq
          · rintro ⟨f', hf', ⟨h', hh', hne'⟩, -⟩
            have := hobj f' hf'
            subst this
            rw [hh] at hh'
            cases hh'
            exact absurd hne hne'
          · intro f' q hrf hq
            have := hobj f' hrf
            subst this
            simp only [validateInput, hh, if_pos hne] at hq
            exact Except.noConfusion hq
        · rcases ht : (reqString f.travelerType).bind travelerTypeOfStr with _ | tt
          · refine ⟨⟨?_, ?_⟩, ?_⟩
            · rintro ⟨q, hq⟩
              simp only [validateInput, hh, if_neg hne, ht] at hq
              exact Except.noConfusion hq
            · rintro ⟨f', hf', -, ⟨tt, ht'⟩, -⟩
              have := hobj f' hf'
              subst this
              rw [ht] at ht'
              cases ht'
            · intro f' q hrf hq
              have := hobj f' hrf
              subst this
              simp only [validateInput, hh, if_neg hne, ht] at hq
              exact Except.noConfusion hq
          · rcases hs : (reqString f.season).bind seasonTypeOfStr with _ | ss
            · refine ⟨⟨?_, ?_⟩, ?_⟩
              · rintro ⟨q, hq⟩
                simp only [validateInput, hh, if_neg hne, ht, hs] at hq
                exact Except.noConfusion hq
              · rintro ⟨f', hf', -, -, ⟨ss, hs'⟩, -⟩
                have := hobj f' hf'
                subst this
                rw [hs] at hs'
                cases hs'
              · intro f' q hrf hq
                have := hobj f' hrf
                subst this
                simp only [validateInput, hh, if_neg hne, ht, hs] at hq
                exact Except.noConfusion hq
            · rcases hr : (reqString f.role).bind roleTypeOfStr with _ | rr
              · refine ⟨⟨?_, ?_⟩, ?_⟩
                · rintro ⟨q, hq⟩
                  simp only [validateInput, hh, if_neg hne, ht, hs, hr] at hq
                  exact Except.noConfusion hq
                · rintro ⟨f', hf', -, -, -, ⟨rr, hr'⟩⟩
                  have := hobj f' hf'
                  subst this
                  rw [hr] at hr'
                  cases hr'
                · intro f' q hrf hq
                  have := hobj f' hrf
                  subst this
                  simp only [validateInput, hh, if_neg hne, ht, hs, hr] at hq
                  exact Except.noConfusion hq
              · have hok : validateInput (RawReq.obj f)
                    = .ok { hotelId := h, travelerType := tt, season := ss,
                            includeRisks := boolOr f.includeRisks true,
                            includePromotions := boolOr f.includePromotions true,
                            includeUjvPov := boolOr f.includeUjvPov true,
                            role := rr, useLLM := boolOr f.useLLM false } := by
                  simp only [validateInput, hh, if_neg hne, ht, hs, hr]
                refine ⟨⟨?_, ?_⟩, ?_⟩
                · rintro -
                  exact ⟨f, rfl, ⟨h, hh, hne⟩, ⟨tt, ht⟩, ⟨ss, hs⟩, ⟨rr, hr⟩⟩
                · rintro -
                  exact ⟨_, hok⟩
                · intro f' q hrf hq
                  have := hobj f' hrf
                  subst this
                  rw [hok] at hq
                  injection hq with hq
                  subst hq
                  refine ⟨?_, ?_, ?_, ?_⟩ <;> intro hb
                  · exact boolOr_default _ _ hb
                  · exact boolOr_default _ _ hb
                  · exact boolOr_default _ _ hb
                  · exact boolOr_default _ _ hb

/-- C8 witness: a concrete payload with a null `includeRisks` and no
`useLLM` field is accepted with those fields defaulted. -/
theorem validateInput_acceptance_witness :
    (∃ q, validateInput rawSample = .ok q)
      ∧ (∀ q, validateInput rawSample = .ok q →
          q.includeRisks = true ∧ q.useLLM = false) := by
  refine ⟨(validateInput_acceptance_and_boolean_defaults rawSample).1.mpr
    ⟨rawFieldsSample, rfl,
      ⟨("h1".toList), by with_unfolding_all decide, by with_unfolding_all decide⟩,
      ⟨.honeymoon, by with_unfolding_all decide⟩,
      ⟨.late_september, by with_unfolding_all decide⟩,
      ⟨.reservations, by with_unfolding_all decide⟩⟩, ?_⟩
  intro q hq
  have h := (validateInput_acceptance_and_boolean_defaults rawSample).2
    rawFieldsSample q rfl hq
  refine ⟨h.1 ?_, h.2.2.2 ?_⟩
  · intro b
    cases b <;> with_unfolding_all decide
  · intro b
    cases b <;> with_unfolding_all decide

/-- C9: in deterministic mode (`useLLM` false), two runs over the same
validated input and data, with the same aggregation clock, produce
identical responses apart from the embedded `createdAt` timestamp,
whatever the plan-creation clock readings and whatever the external
narrative service would have returned. -/
theorem deterministic_idempotence_up_to_createdAt (input : QueryInput)
    (hotel : HotelData) (allSources : List SourceRecord)
    (allChunks : List UnstructuredChunk) (ov1 ov2 : Overrides) (key : Bool)
    (t1 t2 tAge : ℤ) (h : input.useLLM = false) :
    eraseCreatedAt (runQueryCore input hotel allSources allChunks ov1 key t1 tAge)
      = eraseCreatedAt (runQueryCore input hotel allSources allChunks ov2 key t2 tAge) := by
  obtain ⟨hid, tt, ss, ir, ip, iu, ro, ul⟩ := input
  simp only at h
  subst h
  rfl

/-- C9 witness: two concrete runs with different creation clocks and
different would-be override payloads agree after scrubbing `createdAt`. -/
theorem deterministic_idempotence_witness :
    eraseCreatedAt (runQueryCore reqBase hotelShared sourcesShared []
        Overrides.empty false 5 tAgeSample)
      = eraseCreatedAt (runQueryCore reqBase hotelShared sourcesShared []
        { positioning := some ("x".toList), travelerFit := none, risks := none,
          ujvPov := none } false 99 tAgeSample) :=
  deterministic_idempotence_up_to_createdAt reqBase hotelShared sourcesShared []
    Overrides.empty
    { positioning := some ("x".toList), travelerFit := none, risks := none,
      ujvPov := none } false 5 99 tAgeSample rfl

/-- C10: the guardrail flag `trust.guardrails.promotionsFromContractOnly`
is the constant true for every response, independent of the request, the
data, the clock readings and the override payload; it is never computed
from the promotions section's contents. -/
theorem promotions_guardrail_constant_true (input : QueryInput)
    (hotel : HotelData) (allSources : List SourceRecord)
    (allChunks : List UnstructuredChunk) (ov : Overrides) (key : Bool)
    (tCreate tAge : ℤ) :
    (runQueryCore input hotel allSources allChunks ov key tCreate tAge).trust.guardrails.promotionsFromContractOnly = true :=
  rfl

end Atlas
